import Mathlib

/-!
Verification of the halldyll deployment-pods reconciliation engine.

This file gives a shallow embedding, in Lean 4, of the core of the
`halldyll_deploy_pods` Rust program: the configuration hasher
(`src/config/hash.rs`), the diff engine (`src/planner/diff.rs`), the
planner (`src/planner/plan.rs`), the plan executor
(`src/planner/executor.rs`), the state types (`src/state/types.rs`),
the local state store (`src/state/local.rs`, `src/state/lock.rs`) and
the reconciler (`src/reconciler.rs`), together with theorems settling a
list of claims about that code.

Modelling conventions:
* Rust `u16`/`u32`/`u64` values are modelled as `Nat`; SHA-256 word
  arithmetic is reduced modulo `2 ^ 32` exactly where the Rust `u32`
  wraps.
* `HashMap<K, V>` is modelled as an association list `List (K × V)`
  whose insert replaces an existing binding for the same key; map
  iteration order is arbitrary in Rust, and every operation of the
  source that iterates a map first sorts the entries, which the
  embedding mirrors.
* `DateTime<Utc>` is modelled as an `Int` timestamp; `Utc::now()`
  becomes an explicit `now` parameter.
* `async` functions performing I/O are modelled as pure functions over
  explicit inputs (the loaded blob, the observer response, the
  provisioner behaviour), returning the mutated state next to the
  `Result`.  Calls to the provisioner and to the observer are recorded
  in instrumentation fields so that claims about "which external calls
  happen" are statable.
-/

namespace Halldyll

/-! ## Bytes and big-endian encodings

The hasher (`src/config/hash.rs`) feeds `as_bytes()` of strings and
`to_be_bytes()` of integers into SHA-256.  Bytes are `Nat` values below
256. -/

/-- Big-endian byte encoding of `n` on `w` bytes, as produced by the
Rust `to_be_bytes` calls in `src/config/hash.rs`. -/
def beBytes : Nat → Nat → List Nat
  | 0, _ => []
  | w + 1, n => beBytes w (n / 256) ++ [n % 256]

/-- UTF-8 encoding of one character (Rust `str::as_bytes` is UTF-8). -/
def charUtf8 (c : Char) : List Nat :=
  let n := c.toNat
  if n < 128 then [n]
  else if n < 2048 then [192 + n / 64, 128 + n % 64]
  else if n < 65536 then [224 + n / 4096, 128 + (n / 64) % 64, 128 + n % 64]
  else [240 + n / 262144, 128 + (n / 4096) % 64, 128 + (n / 64) % 64, 128 + n % 64]

/-- UTF-8 bytes of a string, as fed to the hasher by `as_bytes()`. -/
def strBytes (s : String) : List Nat := s.data.flatMap charUtf8

/-! ## SHA-256

Executable model of the `sha2` crate's SHA-256 used by `ConfigHasher`
(`src/config/hash.rs`).  Words are `Nat` reduced modulo `2 ^ 32`. -/

/-- The `u32` modulus. -/
def M32 : Nat := 4294967296

/-- Right rotation of a 32-bit word. -/
def rotr32 (k n : Nat) : Nat := ((n >>> k) ||| (n <<< (32 - k))) % M32

/-- SHA-256 big sigma 0. -/
def bSig0 (x : Nat) : Nat := rotr32 2 x ^^^ rotr32 13 x ^^^ rotr32 22 x

/-- SHA-256 big sigma 1. -/
def bSig1 (x : Nat) : Nat := rotr32 6 x ^^^ rotr32 11 x ^^^ rotr32 25 x

/-- SHA-256 small sigma 0. -/
def sSig0 (x : Nat) : Nat := rotr32 7 x ^^^ rotr32 18 x ^^^ (x >>> 3)

/-- SHA-256 small sigma 1. -/
def sSig1 (x : Nat) : Nat := rotr32 17 x ^^^ rotr32 19 x ^^^ (x >>> 10)

/-- SHA-256 choose function. -/
def shaCh (x y z : Nat) : Nat := (x &&& y) ^^^ ((x ^^^ 4294967295) &&& z)

/-- SHA-256 majority function. -/
def shaMaj (x y z : Nat) : Nat := (x &&& y) ^^^ (x &&& z) ^^^ (y &&& z)

/-- SHA-256 round constants (FIPS 180-4, written in decimal). -/
def sha256K : List Nat :=
  [1116352408, 1899447441, 3049323471, 3921009573,
   961987163, 1508970993, 2453635748, 2870763221,
   3624381080, 310598401, 607225278, 1426881987,
   1925078388, 2162078206, 2614888103, 3248222580,
   3835390401, 4022224774, 264347078, 604807628,
   770255983, 1249150122, 1555081692, 1996064986,
   2554220882, 2821834349, 2952996808, 3210313671,
   3336571891, 3584528711, 113926993, 338241895,
   666307205, 773529912, 1294757372, 1396182291,
   1695183700, 1986661051, 2177026350, 2456956037,
   2730485921, 2820302411, 3259730800, 3345764771,
   3516065817, 3600352804, 4094571909, 275423344,
   430227734, 506948616, 659060556, 883997877,
   958139571, 1322822218, 1537002063, 1747873779,
   1955562222, 2024104815, 2227730452, 2361852424,
   2428436474, 2756734187, 3204031479, 3329325298]

/-- SHA-256 initial hash value (FIPS 180-4, written in decimal). -/
def sha256H0 : List Nat :=
  [1779033703, 3144134277, 1013904242, 2773480762,
   1359893119, 2600822924, 528734635, 1541459225]

/-- Packs groups of four big-endian bytes into 32-bit words. -/
def bytesToWords : List Nat → List Nat
  | a :: b :: c :: d :: rest =>
      (a * 16777216 + b * 65536 + c * 256 + d) :: bytesToWords rest
  | _ => []

/-- One step of the message-schedule extension. -/
def scheduleWord (ws : List Nat) : Nat :=
  (ws.getD (ws.length - 16) 0 + sSig0 (ws.getD (ws.length - 15) 0)
     + ws.getD (ws.length - 7) 0 + sSig1 (ws.getD (ws.length - 2) 0)) % M32

/-- Extends the 16 block words to the 64 schedule words. -/
def sha256Schedule (w16 : List Nat) : List Nat :=
  (List.range 48).foldl (fun ws _ => ws ++ [scheduleWord ws]) w16

/-- One SHA-256 compression round on the eight working words. -/
def sha256Round (st : List Nat) (wk : Nat × Nat) : List Nat :=
  match st with
  | [a, b, c, d, e, f, g, h] =>
      let t1 := (h + bSig1 e + shaCh e f g + wk.2 + wk.1) % M32
      let t2 := (bSig0 a + shaMaj a b c) % M32
      [(t1 + t2) % M32, a, b, c, (d + t1) % M32, e, f, g]
  | other => other

/-- SHA-256 compression of one 64-byte block into the running digest. -/
def sha256Compress (h : List Nat) (block : List Nat) : List Nat :=
  let w := sha256Schedule (bytesToWords block)
  let final := (w.zip sha256K).foldl sha256Round h
  (h.zip final).map (fun p => (p.1 + p.2) % M32)

/-- SHA-256 padding: a `0x80` byte, zeros, then the 64-bit bit length. -/
def sha256Pad (msg : List Nat) : List Nat :=
  let l := msg.length
  let k := (64 - (l + 9) % 64) % 64
  msg ++ [128] ++ List.replicate k 0 ++ beBytes 8 (8 * l)

/-- Splits a byte list into 64-byte blocks (fuel-indexed recursion so the
definition is structurally recursive and kernel-reducible). -/
def chunks64Aux : Nat → List Nat → List (List Nat)
  | 0, _ => []
  | _, [] => []
  | fuel + 1, l => l.take 64 :: chunks64Aux fuel (l.drop 64)

/-- Splits a byte list into 64-byte blocks. -/
def chunks64 (l : List Nat) : List (List Nat) := chunks64Aux l.length l

/-- The eight 32-bit words of the SHA-256 digest of a byte message. -/
def sha256Digest (msg : List Nat) : List Nat :=
  (chunks64 (sha256Pad msg)).foldl sha256Compress sha256H0

/-- Lowercase hexadecimal digit. -/
def hexDigit (n : Nat) : Char :=
  if n < 10 then Char.ofNat (48 + n) else Char.ofNat (87 + n)

/-- Fixed-width lowercase hexadecimal rendering of a word. -/
def hexChars : Nat → Nat → List Char
  | 0, _ => []
  | w + 1, n => hexChars w (n / 16) ++ [hexDigit (n % 16)]

/-- Lowercase-hex SHA-256 of a byte message, as `hex::encode` of the
`sha2` digest in `src/config/hash.rs`. -/
def sha256Hex (msg : List Nat) : String :=
  String.mk ((sha256Digest msg).flatMap (hexChars 8))

/-! ## Configuration data model (`src/config/spec.rs`) -/

/-- Port protocol (`PortProtocol` in `src/config/spec.rs`). -/
inductive PortProtocol
  | Tcp | Http | Https | Udp
deriving DecidableEq, Repr

/-- Port declaration (`PortConfig` in `src/config/spec.rs`). -/
structure PortConfig where
  port : Nat
  protocol : PortProtocol
  name : Option String
deriving DecidableEq, Repr

/-- Volume declaration (`VolumeConfig` in `src/config/spec.rs`). -/
structure VolumeConfig where
  name : String
  mount : String
  persistent : Bool
  size_gb : Option Nat
deriving DecidableEq, Repr

/-- Container runtime configuration (`RuntimeConfig` in
`src/config/spec.rs`); the `env` map is an association list. -/
structure RuntimeConfig where
  image : String
  env : List (String × String)
  command : Option (List String)
  args : Option (List String)
deriving DecidableEq, Repr

/-- Model provider (`ModelProvider` in `src/config/spec.rs`). -/
inductive ModelProvider
  | Huggingface | Bundle | Custom
deriving DecidableEq, Repr

/-- Model loading configuration (`LoadConfig` in `src/config/spec.rs`).
The free-form `options` JSON map is not consumed by any operation
embedded here (the hasher ignores it) and is omitted. -/
structure LoadConfig where
  engine : String
  quant : Option String
  max_seq_len : Option Nat
deriving DecidableEq, Repr

/-- Model declaration (`ModelConfig` in `src/config/spec.rs`). -/
structure ModelConfig where
  id : String
  provider : ModelProvider
  repo : Option String
  load : Option LoadConfig
  components : Option (List String)
deriving DecidableEq, Repr

/-- Health check configuration (`HealthCheckConfig` in
`src/config/spec.rs`). -/
structure HealthCheckConfig where
  endpoint : String
  port : Nat
  interval_secs : Nat
  timeout_secs : Nat
  failure_threshold : Nat
deriving DecidableEq, Repr

/-- GPU request (`GpuConfig` in `src/config/spec.rs`). -/
structure GpuConfig where
  gpu_type : String
  count : Nat
  min_vram_gb : Option Nat
  fallback : List String
deriving DecidableEq, Repr

/-- A single pod declaration (`PodConfig` in `src/config/spec.rs`);
`tags` is an association list modelling the Rust `HashMap`. -/
structure PodConfig where
  name : String
  gpu : GpuConfig
  ports : List PortConfig
  volumes : List VolumeConfig
  runtime : RuntimeConfig
  models : List ModelConfig
  health_check : Option HealthCheckConfig
  tags : List (String × String)
deriving DecidableEq, Repr

/-- Cloud type (`CloudType` in `src/config/spec.rs`). -/
inductive CloudType
  | Secure | Community
deriving DecidableEq, Repr

/-- Compute type (`ComputeType` in `src/config/spec.rs`). -/
inductive ComputeType
  | Gpu | Cpu
deriving DecidableEq, Repr

/-- Project block (`ProjectConfig` in `src/config/spec.rs`). -/
structure ProjectConfig where
  name : String
  environment : String
  region : Option String
  cloud_type : CloudType
  compute_type : ComputeType
deriving DecidableEq, Repr

/-- State backend selector (`StateBackend` in `src/config/spec.rs`). -/
inductive StateBackend
  | Local | S3
deriving DecidableEq, Repr

/-- State backend block (`StateConfig` in `src/config/spec.rs`). -/
structure StateConfig where
  backend : StateBackend
  bucket : Option String
  prefix_key : Option String
  region : Option String
  path : Option String
deriving DecidableEq, Repr

/-- Guardrails block (`GuardrailsConfig` in `src/config/spec.rs`).
`max_hourly_cost` is an `f64` in the source; it is modelled by the
IEEE-754 bit pattern of the value, because the only uses embedded here
are a presence test (`is_some`) and feeding its big-endian bytes to the
document hash — no floating-point arithmetic is performed on it. -/
structure GuardrailsConfig where
  max_hourly_cost : Option Nat
  max_gpus : Option Nat
  ttl_hours : Option Nat
  allow_gpu_fallback : Bool
deriving DecidableEq, Repr

/-- Root configuration (`DeployConfig` in `src/config/spec.rs`). -/
structure DeployConfig where
  project : ProjectConfig
  state : StateConfig
  pods : List PodConfig
  guardrails : Option GuardrailsConfig
deriving DecidableEq, Repr

/-! ## The configuration hasher (`src/config/hash.rs`)

`ConfigHasher::hash_pod` and `hash_config` are sequences of
`hasher.update(bytes)` calls followed by `hex::encode(finalize())`.
The embedding first builds the list of update chunks, then feeds their
concatenated bytes to the SHA-256 model above. -/

/-- One `hasher.update(..)` call: either a string's UTF-8 bytes, a
big-endian integer of the given width, a single byte, or the eight
big-endian bytes of an `f64` bit pattern. -/
inductive HashChunk
  | str (s : String)
  | u16 (n : Nat)
  | u32 (n : Nat)
  | byte (b : Nat)
  | f64bits (bits : Nat)
deriving DecidableEq, Repr

/-- The bytes a chunk contributes to the digest. -/
def hashChunkBytes : HashChunk → List Nat
  | .str s => strBytes s
  | .u16 n => beBytes 2 n
  | .u32 n => beBytes 4 n
  | .byte b => [b % 256]
  | .f64bits bits => beBytes 8 bits

/-- Sorting by a key, modelling the `sort_unstable` / `sort_by(cmp)`
normalisation steps of `hash_pod`. -/
def sortByKey {α : Type} {K : Type} [LinearOrder K] (k : α → K) (l : List α) : List α :=
  l.insertionSort (fun a b => k a ≤ k b)

/-- The sequence of `update` chunks of `ConfigHasher::hash_pod`
(`src/config/hash.rs`), in source order: name; gpu type, count,
optional min-vram, fallbacks in declared order; ports sorted
ascending; volumes sorted by name; image; env sorted by key; command
and args in declared order; models sorted by id; tags sorted by key. -/
def hashPodChunks (pod : PodConfig) : List HashChunk :=
  [.str pod.name, .str pod.gpu.gpu_type, .u32 pod.gpu.count]
    ++ (match pod.gpu.min_vram_gb with
        | some vram => [.u32 vram]
        | none => [])
    ++ pod.gpu.fallback.map .str
    ++ (sortByKey id (pod.ports.map PortConfig.port)).map .u16
    ++ (sortByKey VolumeConfig.name pod.volumes).flatMap (fun volume =>
        [.str volume.name, .str volume.mount,
         .byte (if volume.persistent then 1 else 0)]
          ++ (match volume.size_gb with
              | some size => [.u32 size]
              | none => []))
    ++ [.str pod.runtime.image]
    ++ (sortByKey Prod.fst pod.runtime.env).flatMap (fun kv =>
        [.str kv.1, .str kv.2])
    ++ (match pod.runtime.command with
        | some cmd => cmd.map .str
        | none => [])
    ++ (match pod.runtime.args with
        | some args => args.map .str
        | none => [])
    ++ (sortByKey ModelConfig.id pod.models).flatMap (fun model =>
        [.str model.id]
          ++ (match model.repo with
              | some repo => [.str repo]
              | none => [])
          ++ (match model.load with
              | some load =>
                  [.str load.engine]
                    ++ (match load.quant with
                        | some quant => [.str quant]
                        | none => [])
                    ++ (match load.max_seq_len with
                        | some seqLen => [.u32 seqLen]
                        | none => [])
              | none => []))
    ++ (sortByKey Prod.fst pod.tags).flatMap (fun kv =>
        [.str kv.1, .str kv.2])

/-- `ConfigHasher::hash_pod`: lowercase-hex SHA-256 of the chunk
bytes. -/
def hash_pod (pod : PodConfig) : String :=
  sha256Hex ((hashPodChunks pod).flatMap hashChunkBytes)

/-- The sequence of `update` chunks of `ConfigHasher::hash_config`:
project name, environment, optional region, then each per-pod hash in
declared pod order, then the guardrail numeric fields if present. -/
def hashConfigChunks (config : DeployConfig) : List HashChunk :=
  [.str config.project.name, .str config.project.environment]
    ++ (match config.project.region with
        | some region => [.str region]
        | none => [])
    ++ config.pods.map (fun pod => .str (hash_pod pod))
    ++ (match config.guardrails with
        | some guardrails =>
            (match guardrails.max_hourly_cost with
             | some bits => [.f64bits bits]
             | none => [])
              ++ (match guardrails.max_gpus with
                  | some maxGpus => [.u32 maxGpus]
                  | none => [])
        | none => [])

/-- `ConfigHasher::hash_config`. -/
def hash_config (config : DeployConfig) : String :=
  sha256Hex ((hashConfigChunks config).flatMap hashChunkBytes)

/-! ## State types (`src/state/types.rs`) -/

/-- Deployment status (`DeploymentStatus` in `src/state/types.rs`). -/
inductive DeploymentStatus
  | Creating | Running | Stopped | Error | Deleting | Deleted | Unknown
deriving DecidableEq, Repr

/-- Recorded state of one pod (`PodState` in `src/state/types.rs`). -/
structure PodState where
  name : String
  runpod_id : String
  config_hash : String
  status : DeploymentStatus
  gpu_type : String
  gpu_count : Nat
  image : String
  endpoints : List (Nat × String)
  created_at : Int
  updated_at : Int
  tags : List (String × String)
deriving DecidableEq, Repr

/-- Recorded state of one volume (`VolumeState` in
`src/state/types.rs`). -/
structure VolumeState where
  name : String
  runpod_id : String
  mount_path : String
  size_gb : Nat
  created_at : Int
deriving DecidableEq, Repr

/-- Operation kind of a history entry (`DeploymentOperation`). -/
inductive DeploymentOperation
  | Create | Update | Scale | Reconcile | Destroy
deriving DecidableEq, Repr

/-- One history entry (`DeploymentHistoryEntry` in
`src/state/types.rs`). -/
structure DeploymentHistoryEntry where
  timestamp : Int
  operation : DeploymentOperation
  config_hash : String
  resources : List String
  success : Bool
  error : Option String
deriving DecidableEq, Repr

/-- The persisted deployment state (`DeploymentState` in
`src/state/types.rs`); the `pods` and `volumes` maps are association
lists. -/
structure DeploymentState where
  version : String
  project : String
  environment : String
  config_hash : String
  pods : List (String × PodState)
  volumes : List (String × VolumeState)
  last_updated : Int
  history : List DeploymentHistoryEntry
deriving DecidableEq, Repr

/-- Association-list lookup, modelling `HashMap::get`. -/
def assocGet {V : Type} (k : String) (l : List (String × V)) : Option V :=
  (l.find? (fun p => p.1 = k)).map (·.2)

/-- Association-list insert, modelling `HashMap::insert`: replaces the
binding when the key is present, otherwise appends it. -/
def assocInsert {V : Type} (k : String) (v : V) (l : List (String × V)) :
    List (String × V) :=
  if l.any (fun p => p.1 = k) then
    l.map (fun p => if p.1 = k then (k, v) else p)
  else
    l ++ [(k, v)]

/-- Association-list removal, modelling `HashMap::remove`. -/
def assocRemove {V : Type} (k : String) (l : List (String × V)) :
    List (String × V) :=
  l.filter (fun p => ¬ p.1 = k)

/-- `DeploymentState::new` (version `"1.0"`, empty maps and history). -/
def DeploymentState.new (project environment : String) (now : Int) :
    DeploymentState :=
  { version := "1.0", project, environment, config_hash := ""
    pods := [], volumes := [], last_updated := now, history := [] }

/-- `DeploymentState::get_pod`. -/
def DeploymentState.get_pod (st : DeploymentState) (name : String) :
    Option PodState :=
  assocGet name st.pods

/-- `DeploymentState::set_pod` (inserts and refreshes
`last_updated`). -/
def DeploymentState.set_pod (st : DeploymentState) (pod : PodState)
    (now : Int) : DeploymentState :=
  { st with pods := assocInsert pod.name pod st.pods, last_updated := now }

/-- `DeploymentState::remove_pod` (refreshes `last_updated` only when a
pod was actually removed). -/
def DeploymentState.remove_pod (st : DeploymentState) (name : String)
    (now : Int) : DeploymentState :=
  match assocGet name st.pods with
  | some _ =>
      { st with pods := assocRemove name st.pods, last_updated := now }
  | none => st

/-- `DeploymentState::add_history`: when the history already holds 100
or more entries the oldest is removed, then the new entry is pushed. -/
def DeploymentState.add_history (st : DeploymentState)
    (entry : DeploymentHistoryEntry) : DeploymentState :=
  { st with
      history :=
        (if 100 ≤ st.history.length then st.history.eraseIdx 0
         else st.history) ++ [entry] }

/-- `PodState::new`: status starts at `Creating`, realized fields
empty. -/
def PodState.new (name runpod_id config_hash : String) (now : Int) :
    PodState :=
  { name, runpod_id, config_hash, status := .Creating, gpu_type := ""
    gpu_count := 0, image := "", endpoints := [], created_at := now
    updated_at := now, tags := [] }

/-- `PodState::set_status`. -/
def PodState.set_status (ps : PodState) (status : DeploymentStatus)
    (now : Int) : PodState :=
  { ps with status, updated_at := now }

/-- `DeploymentHistoryEntry::new` (a successful entry). -/
def DeploymentHistoryEntry.new (operation : DeploymentOperation)
    (config_hash : String) (resources : List String) (now : Int) :
    DeploymentHistoryEntry :=
  { timestamp := now, operation, config_hash, resources
    success := true, error := none }

/-- `DeploymentHistoryEntry::failed`. -/
def DeploymentHistoryEntry.failed (operation : DeploymentOperation)
    (config_hash : String) (resources : List String) (error : String)
    (now : Int) : DeploymentHistoryEntry :=
  { timestamp := now, operation, config_hash, resources
    success := false, error := some error }

/-! ## Errors (`src/error.rs`, the variants the embedded code uses) -/

/-- The error variants reachable from the embedded operations. -/
inductive HalldyllError
  | reconcileAborted (reason : String)
  | runpodPodNotFound (id : String)
  | stateCorrupted (message : String)
  | stateLockedByOther (holder : String) (since : String)
  | genericError (message : String)
deriving DecidableEq, Repr

/-- Rendering of an error as `e.to_string()`; only the shape matters to
the claims (no claim inspects these strings), the variants mirror the
`thiserror` display forms. -/
def HalldyllError.render : HalldyllError → String
  | .reconcileAborted reason => "Reconciliation aborted: " ++ reason
  | .runpodPodNotFound id => "Pod not found: " ++ id
  | .stateCorrupted message => "State file corrupted: " ++ message
  | .stateLockedByOther holder since =>
      "State is locked by " ++ holder ++ " since " ++ since
  | .genericError message => message

/-! ## Observed pods (`src/runpod/observer.rs`) -/

/-- Provider-side pod status (`PodStatus` in `src/runpod/types.rs`). -/
inductive PodStatus
  | Running | Starting | Exited | Stopped | Creating | Unknown
deriving DecidableEq, Repr

/-- An observed provider pod (`ObservedPod` in
`src/runpod/observer.rs`). -/
structure ObservedPod where
  id : String
  name : String
  project : Option String
  environment : Option String
  pod_name : Option String
  spec_hash : Option String
  status : PodStatus
  gpu_type : Option String
  gpu_count : Nat
  image : String
  endpoints : List (Nat × String)
  tags : List (String × String)
deriving DecidableEq, Repr

/-! ## Diff engine (`src/planner/diff.rs`) -/

/-- Diff classification (`DiffType`). -/
inductive DiffType
  | Create | Update | Delete | NoChange | Drift
deriving DecidableEq, Repr

/-- The `Display` rendering of a `DiffType`. -/
def DiffType.render : DiffType → String
  | .Create => "create"
  | .Update => "update"
  | .Delete => "delete"
  | .NoChange => "no change"
  | .Drift => "drift"

/-- One field-level difference (`DiffDetail`). -/
structure DiffDetail where
  field : String
  old_value : Option String
  new_value : Option String
deriving DecidableEq, Repr

/-- Diff of a single resource (`ResourceDiff`). -/
structure ResourceDiff where
  name : String
  diff_type : DiffType
  details : List DiffDetail
  old_hash : Option String
  new_hash : Option String
deriving DecidableEq, Repr

/-- Complete diff result (`DiffResult`). -/
structure DiffResult where
  diffs : List ResourceDiff
  creates : Nat
  updates : Nat
  deletes : Nat
  unchanged : Nat
deriving DecidableEq, Repr

/-- `DiffEngine::compute_detailed_diff`: field comparisons for image,
GPU type and GPU count. -/
def compute_detailed_diff (config : PodConfig) (observed : ObservedPod) :
    List DiffDetail :=
  (if ¬ config.runtime.image = observed.image then
     [{ field := "image", old_value := some observed.image
        new_value := some config.runtime.image }]
   else [])
    ++ (match observed.gpu_type with
        | some obsGpu =>
            if ¬ config.gpu.gpu_type = obsGpu then
              [{ field := "gpu_type", old_value := some obsGpu
                 new_value := some config.gpu.gpu_type }]
            else []
        | none => [])
    ++ (if ¬ config.gpu.count = observed.gpu_count then
          [{ field := "gpu_count"
             old_value := some (toString observed.gpu_count)
             new_value := some (toString config.gpu.count) }]
        else [])

/-- `DiffEngine::compute_pod_diff` (`src/planner/diff.rs`): classifies
one desired pod from the observed pod, the prior state record and the
newly computed hash, following the source's `match (observed, state)`
arms in order. -/
def compute_pod_diff (config : PodConfig) (observed : Option ObservedPod)
    (state : Option PodState) (new_hash : String) : ResourceDiff :=
  match observed, state with
  | none, none =>
      { name := config.name, diff_type := .Create
        details := [{ field := "pod", old_value := none
                      new_value := some config.name }]
        old_hash := none, new_hash := some new_hash }
  | some obs, _ =>
      let old_hash := obs.spec_hash
      if old_hash = some new_hash then
        { name := config.name, diff_type := .NoChange, details := []
          old_hash := old_hash, new_hash := some new_hash }
      else
        { name := config.name
          diff_type := if old_hash.isSome then .Update else .Drift
          details := compute_detailed_diff config obs
          old_hash := old_hash, new_hash := some new_hash }
  | none, some st =>
      { name := config.name, diff_type := .Create
        details := [{ field := "pod"
                      old_value :=
                        some ("missing (was " ++ st.runpod_id ++ ")")
                      new_value := some config.name }]
        old_hash := some st.config_hash, new_hash := some new_hash }

/-- `DiffEngine::compute_diff`: per-pod classification of every desired
pod, then a `Delete` diff for every observed project pod missing from
the desired document, then the summary counts. -/
def compute_diff (config : DeployConfig) (state : Option DeploymentState)
    (observed : List ObservedPod) : DiffResult :=
  let observed_by_name : List (String × ObservedPod) :=
    observed.foldl (fun m p =>
      match p.pod_name with
      | some podName => assocInsert podName p m
      | none => m) []
  let state_pods : List (String × PodState) :=
    match state with
    | some s => s.pods
    | none => []
  let desired := config.pods.map (fun podConfig =>
    compute_pod_diff podConfig (assocGet podConfig.name observed_by_name)
      (assocGet podConfig.name state_pods) (hash_pod podConfig))
  let orphans := observed.filterMap (fun observedPod =>
    match observedPod.pod_name with
    | some podName =>
        if config.pods.any (fun p => p.name = podName) then none
        else
          some { name := podName, diff_type := .Delete
                 details := [{ field := "pod"
                               old_value := some observedPod.id
                               new_value := none }]
                 old_hash := observedPod.spec_hash, new_hash := none }
    | none => none)
  let diffs := desired ++ orphans
  { diffs
    creates := (diffs.filter (fun d => d.diff_type = .Create)).length
    updates :=
      (diffs.filter (fun d =>
        d.diff_type = .Update ∨ d.diff_type = .Drift)).length
    deletes := (diffs.filter (fun d => d.diff_type = .Delete)).length
    unchanged :=
      (diffs.filter (fun d => d.diff_type = .NoChange)).length }

/-- `DiffResult::has_changes`. -/
def DiffResult.has_changes (d : DiffResult) : Bool :=
  0 < d.creates || 0 < d.updates || 0 < d.deletes

/-! ## Planner (`src/planner/plan.rs`) -/

/-- Action kind (`ActionType`). -/
inductive ActionType
  | CreatePod | UpdatePod | DeletePod | StopPod | ResumePod | Noop
deriving DecidableEq, Repr

/-- A planned action (`PlannedAction`). -/
structure PlannedAction where
  action_type : ActionType
  resource_name : String
  pod_config : Option PodConfig
  runpod_id : Option String
  reason : String
  new_hash : Option String
  dependencies : List Nat
deriving DecidableEq, Repr

/-- A deployment plan (`DeploymentPlan`).  `estimated_cost_delta` is an
`Option<f64>` in the source, modelled by the bit pattern (it is only
ever `None` or `Some(0.0)`). -/
structure DeploymentPlan where
  created_at : Int
  config_hash : String
  actions : List PlannedAction
  estimated_cost_delta : Option Nat
  passes_guardrails : Bool
  guardrail_violations : List String
deriving DecidableEq, Repr

/-- The `DeletePod` action pushed by the first loop of `from_diff` for
a `Delete` diff. -/
def deleteActionOf (d : ResourceDiff) : PlannedAction :=
  { action_type := .DeletePod, resource_name := d.name
    pod_config := none
    runpod_id := d.details.head?.bind (·.old_value)
    reason := "Pod removed from configuration"
    new_hash := none, dependencies := [] }

/-- The `CreatePod` action pushed by the second loop of `from_diff` for
a pure `Create` diff. -/
def createActionOf (d : ResourceDiff) (podConfig : PodConfig) :
    PlannedAction :=
  { action_type := .CreatePod, resource_name := d.name
    pod_config := some podConfig, runpod_id := none
    reason := "Pod defined in configuration"
    new_hash := d.new_hash, dependencies := [] }

/-- The `DeletePod` half of a recreate pair (third loop of
`from_diff`); `i` is the diff's index, used by the source to re-read
the diff's first detail for the provider id. -/
def recreateDeleteAction (diff : DiffResult) (i : Nat) (d : ResourceDiff) :
    PlannedAction :=
  { action_type := .DeletePod, resource_name := d.name
    pod_config := none
    runpod_id :=
      (diff.diffs.get? i).bind (fun dd => dd.details.head?.bind (·.old_value))
    reason := "Recreating pod due to " ++ d.diff_type.render
    new_hash := none, dependencies := [] }

/-- The `CreatePod` half of a recreate pair, depending on its paired
delete's index. -/
def recreateCreateAction (d : ResourceDiff) (podConfig : PodConfig)
    (delete_idx : Nat) : PlannedAction :=
  { action_type := .CreatePod, resource_name := d.name
    pod_config := some podConfig, runpod_id := none
    reason := "Recreating pod due to " ++ d.diff_type.render
    new_hash := d.new_hash, dependencies := [delete_idx] }

/-- The `config.pods.iter().find(|p| p.name == name)` lookups of
`from_diff`. -/
def findPodConfig (config : DeployConfig) (name : String) :
    Option PodConfig :=
  config.pods.find? (fun p => p.name = name)

/-- `check_cost_guardrails` is a placeholder in the source: it never
pushes a violation. -/
def check_cost_guardrails (_guardrails : GuardrailsConfig)
    (_actions : List PlannedAction) (violations : List String) :
    List String :=
  violations

/-- `DeploymentPlan::check_guardrails`: sums `gpu.count` over the
actions carrying a pod configuration and compares against `max_gpus`;
the `delete_count` argument is unused by the source. -/
def check_guardrails (config : DeployConfig)
    (actions : List PlannedAction) (_delete_count : Nat) :
    Bool × List String :=
  match config.guardrails with
  | some guardrails =>
      let violations :=
        match guardrails.max_gpus with
        | some max_gpus =>
            let total_gpus :=
              ((actions.filterMap (·.pod_config)).map
                (fun p => p.gpu.count)).sum
            if max_gpus < total_gpus then
              ["Plan requires " ++ toString total_gpus
                 ++ " GPUs but max_gpus is " ++ toString max_gpus]
            else []
        | none => []
      let violations := check_cost_guardrails guardrails actions violations
      (violations.isEmpty, violations)
  | none => (true, [])

/-- `DeploymentPlan::from_diff`: deletes first in diff order, then pure
creates, then a delete+create pair per update/drift diff (the create
depending on the pair's delete, whose index is the action count at push
time), then the guardrail check. -/
def DeploymentPlan.from_diff (diff : DiffResult) (config : DeployConfig)
    (config_hash : String) (now : Int) : DeploymentPlan :=
  let afterDeletes :=
    diff.diffs.foldl (fun acc d =>
      if d.diff_type = .Delete then acc ++ [deleteActionOf d] else acc) []
  let delete_count := afterDeletes.length
  let afterCreates :=
    diff.diffs.foldl (fun acc d =>
      if d.diff_type = .Create then
        match findPodConfig config d.name with
        | some podConfig => acc ++ [createActionOf d podConfig]
        | none => acc
      else acc) afterDeletes
  let actions :=
    diff.diffs.enum.foldl (fun acc x =>
      if x.2.diff_type = .Update ∨ x.2.diff_type = .Drift then
        match findPodConfig config x.2.name with
        | some podConfig =>
            acc ++ [recreateDeleteAction diff x.1 x.2,
                    recreateCreateAction x.2 podConfig acc.length]
        | none => acc
      else acc) afterCreates
  let gr := check_guardrails config actions delete_count
  { created_at := now, config_hash, actions
    estimated_cost_delta := none
    passes_guardrails := gr.1, guardrail_violations := gr.2 }

/-- `DeploymentPlan::empty`. -/
def DeploymentPlan.emptyPlan (config_hash : String) (now : Int) :
    DeploymentPlan :=
  { created_at := now, config_hash, actions := []
    estimated_cost_delta := some 0
    passes_guardrails := true, guardrail_violations := [] }

/-! ## Plan executor (`src/planner/executor.rs`)

The provisioner is an external collaborator; it is modelled as a record
of pure call behaviours, and the execution model additionally returns
the list of provisioner calls actually made, so that "the provisioner
is not invoked" is a statable property. -/

/-- The provider pod returned by `create_pod`, restricted to the fields
`execute_create` reads (`id`, `gpu_type_name()`, `gpu_count`,
`image_name` of `runpod::types::Pod`). -/
structure ProvPod where
  id : String
  gpu_type_name : Option String
  gpu_count : Nat
  image_name : String
deriving DecidableEq, Repr

/-- One provisioner invocation. -/
inductive ProvCall
  | createPod (pod : PodConfig) (project : ProjectConfig) (spec_hash : String)
  | terminatePod (id : String)
  | stopPod (id : String)
  | resumePod (id : String)
deriving DecidableEq, Repr

/-- Pure model of the provisioner's behaviour. -/
structure Provisioner where
  create_pod : PodConfig → ProjectConfig → String → Except HalldyllError ProvPod
  terminate_pod : String → Except HalldyllError Unit
  stop_pod : String → Except HalldyllError Unit
  resume_pod : String → Except HalldyllError Unit

/-- Result of one action (`ActionResult`). -/
structure ActionResult where
  index : Nat
  action : PlannedAction
  success : Bool
  pod_id : Option String
  error : Option String
deriving DecidableEq, Repr

/-- Result of a whole plan (`ExecutionResult`). -/
structure ExecutionResult where
  results : List ActionResult
  total_executed : Nat
  successful : Nat
  failed : Nat
  skipped : Nat
  success : Bool
deriving DecidableEq, Repr

/-- The literal skip message of the executor. -/
def skipMessage : String := "Skipped due to dependency failure"

/-- `PlanExecutor::execute_create`. -/
def execute_create (prov : Provisioner) (project : ProjectConfig)
    (index : Nat) (action : PlannedAction) (st : DeploymentState)
    (now : Int) : ActionResult × DeploymentState × List ProvCall :=
  match action.pod_config with
  | none =>
      ({ index, action, success := false, pod_id := none
         error := some "Missing pod configuration" }, st, [])
  | some pod_config =>
      let spec_hash := action.new_hash.getD ""
      let call := ProvCall.createPod pod_config project spec_hash
      match prov.create_pod pod_config project spec_hash with
      | .ok pod =>
          let pod_state := PodState.new action.resource_name pod.id spec_hash now
          let pod_state :=
            { pod_state with
                gpu_type := pod.gpu_type_name.getD ""
                gpu_count := pod.gpu_count
                image := pod.image_name }
          let pod_state := pod_state.set_status .Creating now
          ({ index, action, success := true, pod_id := some pod.id
             error := none }, st.set_pod pod_state now, [call])
      | .error e =>
          ({ index, action, success := false, pod_id := none
             error := some e.render }, st, [call])

/-- `PlanExecutor::execute_delete`; a missing pod id and a provider
"not found" are both treated as success. -/
def execute_delete (prov : Provisioner) (index : Nat)
    (action : PlannedAction) (st : DeploymentState) (now : Int) :
    ActionResult × DeploymentState × List ProvCall :=
  let pod_id :=
    match action.runpod_id with
    | some i => some i
    | none => (st.get_pod action.resource_name).map (·.runpod_id)
  match pod_id with
  | none =>
      ({ index, action, success := true, pod_id := none, error := none },
       st.remove_pod action.resource_name now, [])
  | some pod_id =>
      let call := ProvCall.terminatePod pod_id
      match prov.terminate_pod pod_id with
      | .ok _ =>
          ({ index, action, success := true, pod_id := some pod_id
             error := none },
           st.remove_pod action.resource_name now, [call])
      | .error e =>
          match e with
          | .runpodPodNotFound _ =>
              ({ index, action, success := true, pod_id := some pod_id
                 error := none },
               st.remove_pod action.resource_name now, [call])
          | _ =>
              ({ index, action, success := false, pod_id := some pod_id
                 error := some e.render }, st, [call])

/-- Updates a pod's status in place, as the `get_pod_mut` +
`set_status` sequence of `execute_stop`/`execute_resume` does (the
state's `last_updated` is not touched by that sequence). -/
def DeploymentState.update_pod_status (st : DeploymentState)
    (name : String) (status : DeploymentStatus) (now : Int) :
    DeploymentState :=
  { st with
      pods := st.pods.map (fun p =>
        if p.1 = name then (p.1, p.2.set_status status now) else p) }

/-- `PlanExecutor::execute_stop`. -/
def execute_stop (prov : Provisioner) (index : Nat)
    (action : PlannedAction) (st : DeploymentState) (now : Int) :
    ActionResult × DeploymentState × List ProvCall :=
  let pod_id :=
    match action.runpod_id with
    | some i => some i
    | none => (st.get_pod action.resource_name).map (·.runpod_id)
  match pod_id with
  | none =>
      ({ index, action, success := false, pod_id := none
         error := some "Pod not found" }, st, [])
  | some pod_id =>
      let call := ProvCall.stopPod pod_id
      match prov.stop_pod pod_id with
      | .ok _ =>
          ({ index, action, success := true, pod_id := some pod_id
             error := none },
           st.update_pod_status action.resource_name .Stopped now, [call])
      | .error e =>
          ({ index, action, success := false, pod_id := some pod_id
             error := some e.render }, st, [call])

/-- `PlanExecutor::execute_resume`. -/
def execute_resume (prov : Provisioner) (index : Nat)
    (action : PlannedAction) (st : DeploymentState) (now : Int) :
    ActionResult × DeploymentState × List ProvCall :=
  let pod_id :=
    match action.runpod_id with
    | some i => some i
    | none => (st.get_pod action.resource_name).map (·.runpod_id)
  match pod_id with
  | none =>
      ({ index, action, success := false, pod_id := none
         error := some "Pod not found" }, st, [])
  | some pod_id =>
      let call := ProvCall.resumePod pod_id
      match prov.resume_pod pod_id with
      | .ok _ =>
          ({ index, action, success := true, pod_id := some pod_id
             error := none },
           st.update_pod_status action.resource_name .Running now, [call])
      | .error e =>
          ({ index, action, success := false, pod_id := some pod_id
             error := some e.render }, st, [call])

/-- `PlanExecutor::execute_action`: dispatch on the action kind
(`UpdatePod` falls back to the create path, as in the source). -/
def execute_action (prov : Provisioner) (project : ProjectConfig)
    (index : Nat) (action : PlannedAction) (st : DeploymentState)
    (now : Int) : ActionResult × DeploymentState × List ProvCall :=
  match action.action_type with
  | .CreatePod => execute_create prov project index action st now
  | .DeletePod => execute_delete prov index action st now
  | .UpdatePod => execute_create prov project index action st now
  | .StopPod => execute_stop prov index action st now
  | .ResumePod => execute_resume prov index action st now
  | .Noop =>
      ({ index, action, success := true, pod_id := none, error := none },
       st, [])

/-- Accumulator of the executor's action loop. -/
structure ExecLoop where
  results : List ActionResult
  completed : List Nat
  failedIdx : List Nat
  st : DeploymentState
  calls : List ProvCall
  stopped : Bool
deriving Repr

/-- One iteration of the executor's action loop: skip on a failed
dependency, otherwise run the action; a hard failure stops the loop
when `continue_on_error` is false. -/
def execStep (prov : Provisioner) (project : ProjectConfig) (now : Int)
    (continue_on_error : Bool) (ls : ExecLoop) (x : Nat × PlannedAction) :
    ExecLoop :=
  if ls.stopped then ls
  else
    let idx := x.1
    let action := x.2
    if action.dependencies.any (fun dep => ls.failedIdx.contains dep) then
      { ls with
          results := ls.results ++
            [{ index := idx, action, success := false, pod_id := none
               error := some skipMessage }]
          failedIdx := ls.failedIdx ++ [idx] }
    else
      let out := execute_action prov project idx action ls.st now
      if out.1.success then
        { ls with
            results := ls.results ++ [out.1]
            completed := ls.completed ++ [idx]
            st := out.2.1, calls := ls.calls ++ out.2.2 }
      else
        { ls with
            results := ls.results ++ [out.1]
            failedIdx := ls.failedIdx ++ [idx]
            st := out.2.1, calls := ls.calls ++ out.2.2
            stopped := !continue_on_error }

/-- `PlanExecutor::execute` (`src/planner/executor.rs`): empty plans
succeed immediately; a plan failing guardrails aborts before any
action; otherwise the actions run in order and the run is recorded in
the state's history, with the state's `config_hash` set to the plan's
hash. -/
def PlanExecutor.execute (prov : Provisioner) (project : ProjectConfig)
    (continue_on_error : Bool) (plan : DeploymentPlan)
    (st : DeploymentState) (now : Int) :
    Except HalldyllError ExecutionResult × DeploymentState × List ProvCall :=
  if plan.actions.isEmpty then
    (Except.ok { results := [], total_executed := 0, successful := 0
                 failed := 0, skipped := 0, success := true }, st, [])
  else if !plan.passes_guardrails then
    (Except.error (.reconcileAborted "Plan violates guardrails"), st, [])
  else
    let ls := plan.actions.enum.foldl
      (execStep prov project now continue_on_error)
      { results := [], completed := [], failedIdx := [], st := st
        calls := [], stopped := false }
    let successful := (ls.results.filter (fun r => r.success)).length
    let failed :=
      (ls.results.filter (fun r =>
        !r.success && !(r.error == some skipMessage))).length
    let skipped :=
      (ls.results.filter (fun r => r.error == some skipMessage)).length
    let execution_result : ExecutionResult :=
      { results := ls.results, total_executed := ls.results.length
        successful, failed, skipped, success := failed = 0 }
    let history_entry :=
      if execution_result.success then
        DeploymentHistoryEntry.new .Create plan.config_hash
          (plan.actions.map (·.resource_name)) now
      else
        DeploymentHistoryEntry.failed .Create plan.config_hash
          (plan.actions.map (·.resource_name))
          (toString execution_result.failed ++ " actions failed") now
    let stOut := ls.st.add_history history_entry
    let stOut := { stOut with config_hash := plan.config_hash }
    (Except.ok execution_result, stOut, ls.calls)

/-! ## Reconciler (`src/reconciler.rs`) -/

/-- Result of a reconciliation run (`ReconciliationResult`). -/
structure ReconciliationResult where
  success : Bool
  created : Nat
  updated : Nat
  deleted : Nat
  unchanged : Nat
  errors : List String
  final_state : Option DeploymentState
deriving DecidableEq, Repr

/-- `Reconciler::reconcile_once`: diff, stop early when converged,
plan, abort on guardrails, otherwise execute (with
`continue_on_error = true`, as the reconciler sets). -/
def reconcile_once (config : DeployConfig) (prov : Provisioner)
    (st : DeploymentState) (observed : List ObservedPod)
    (config_hash : String) (now : Int) :
    Except HalldyllError ReconciliationResult × DeploymentState × List ProvCall :=
  let diff := compute_diff config (some st) observed
  if !diff.has_changes then
    (Except.ok { success := true, created := 0, updated := 0, deleted := 0
                 unchanged := diff.unchanged, errors := []
                 final_state := none }, st, [])
  else
    let plan := DeploymentPlan.from_diff diff config config_hash now
    if !plan.passes_guardrails then
      (Except.error (.reconcileAborted
        ("Plan violates guardrails: "
          ++ String.intercalate ", " plan.guardrail_violations)), st, [])
    else
      match PlanExecutor.execute prov config.project true plan st now with
      | (.error e, st', calls) => (.error e, st', calls)
      | (.ok er, st', calls) =>
          let errors :=
            (er.results.filter (fun r => !r.success)).filterMap (·.error)
          let errors :=
            if !er.success then
              (toString er.failed ++ " of " ++ toString er.total_executed
                ++ " actions failed") :: errors
            else errors
          (Except.ok { success := er.success, created := diff.creates
                       updated := diff.updates, deleted := diff.deletes
                       unchanged := diff.unchanged, errors
                       final_state := none }, st', calls)

/-- The retry loop of `Reconciler::reconcile` (`for attempt in
1..=max_attempts`): an `Ok` result replaces the running result and
stops the loop when successful; an `Err` appends an attempt-prefixed
message and is remembered as the last hard error.  `attempts` counts
iterations already performed. -/
def reconcileLoop (config : DeployConfig) (prov : Provisioner)
    (observed : List ObservedPod) (config_hash : String) (now : Int) :
    Nat → DeploymentState → ReconciliationResult → Option HalldyllError →
    Nat → List ProvCall →
    ReconciliationResult × Option HalldyllError × DeploymentState × Nat ×
      List ProvCall
  | 0, st, result, last_error, attempts, calls =>
      (result, last_error, st, attempts, calls)
  | remaining + 1, st, result, last_error, attempts, calls =>
      match reconcile_once config prov st observed config_hash now with
      | (.ok r, st', calls') =>
          if r.success then
            (r, last_error, st', attempts + 1, calls ++ calls')
          else
            reconcileLoop config prov observed config_hash now remaining
              st' r last_error (attempts + 1) (calls ++ calls')
      | (.error e, st', calls') =>
          reconcileLoop config prov observed config_hash now remaining st'
            { result with
                errors := result.errors ++
                  ["Attempt " ++ toString (attempts + 1) ++ ": "
                    ++ e.render] }
            (some e) (attempts + 1) (calls ++ calls')

/-- Decidable equality for `Except` values, used to evaluate the
embedding at concrete inputs. -/
instance {ε α : Type} [DecidableEq ε] [DecidableEq α] :
    DecidableEq (Except ε α) := fun a b =>
  match a, b with
  | .ok x, .ok y =>
      if h : x = y then .isTrue (by rw [h]) else
        .isFalse (by intro hc; cases hc; exact h rfl)
  | .error x, .error y =>
      if h : x = y then .isTrue (by rw [h]) else
        .isFalse (by intro hc; cases hc; exact h rfl)
  | .ok _, .error _ => .isFalse (by intro hc; cases hc)
  | .error _, .ok _ => .isFalse (by intro hc; cases hc)

/-- Instrumented outcome of a reconcile run: the returned result plus
how many times the observer and the provisioner were invoked. -/
structure ReconcileOut where
  result : Except HalldyllError ReconciliationResult
  observer_calls : Nat
  attempts_made : Nat
  prov_calls : List ProvCall
deriving DecidableEq, Repr

/-- `Reconciler::reconcile` (`src/reconciler.rs`): load state (empty
when missing), list the observed pods ONCE, compute the document hash,
then retry `reconcile_once` up to `max_attempts` times, persist the
final state, and fail with the last hard error when unsuccessful.  The
store's load result, the store's save behaviour and the observer's
(single) response are explicit inputs; `observer_calls` counts
`list_project_pods` invocations. -/
def Reconciler.reconcile (config : DeployConfig) (prov : Provisioner)
    (load_result : Except HalldyllError (Option DeploymentState))
    (save_result : DeploymentState → Except HalldyllError Unit)
    (observed_pods : List ObservedPod) (max_attempts : Nat) (now : Int) :
    ReconcileOut :=
  let config_hash := hash_config config
  match load_result with
  | .error e =>
      { result := .error e, observer_calls := 0, attempts_made := 0
        prov_calls := [] }
  | .ok loaded =>
      let st := loaded.getD
        (DeploymentState.new config.project.name
          config.project.environment now)
      let observed := observed_pods
      let initResult : ReconciliationResult :=
        { success := false, created := 0, updated := 0, deleted := 0
          unchanged := 0, errors := [], final_state := none }
      let out := reconcileLoop config prov observed config_hash now
        max_attempts st initResult none 0 []
      let result := out.1
      let last_error := out.2.1
      let stF := out.2.2.1
      let attempts := out.2.2.2.1
      let calls := out.2.2.2.2
      let result :=
        match save_result stF with
        | .ok _ => result
        | .error e =>
            { result with
                errors := result.errors ++
                  ["Failed to save state: " ++ e.render] }
      let result := { result with final_state := some stF }
      let resultE : Except HalldyllError ReconciliationResult :=
        if !result.success then
          match last_error with
          | some e => .error e
          | none => .ok result
        else .ok result
      { result := resultE, observer_calls := 1
        attempts_made := attempts, prov_calls := calls }

/-! ## State store (`src/state/local.rs`, `src/state/lock.rs`)

The on-disk blob is modelled by its three relevant conditions: absent,
present but unreadable/unparseable, or present and well-formed.
`Utc::now()` and `Uuid::new_v4()` become explicit parameters. -/

/-- Condition of the state blob on disk: missing, present but failing
to read or parse (with the error detail), or present and valid. -/
inductive StateBlob
  | missing
  | invalid (raw : String)
  | valid (st : DeploymentState)
deriving Repr

/-- `LocalStateStore::load` (`src/state/local.rs`): a missing blob is
`Ok(None)`; a blob that fails to read or parse is a `Corrupted` error;
a valid blob is `Ok(Some(state))`. -/
def LocalStateStore.load (blob : StateBlob) :
    Except HalldyllError (Option DeploymentState) :=
  match blob with
  | .missing => .ok none
  | .invalid raw =>
      .error (.stateCorrupted ("Failed to parse state file: " ++ raw))
  | .valid st => .ok (some st)

/-- `LOCK_EXPIRY_SECS` (`src/state/lock.rs`): 300 seconds. -/
def LOCK_EXPIRY_SECS : Int := 300

/-- Lock blob contents (`LockInfo` in `src/state/lock.rs`). -/
structure LockInfo where
  lock_id : String
  holder : String
  acquired_at : Int
  expires_at : Int
deriving DecidableEq, Repr

/-- `LockInfo::new`: the fresh `Uuid::new_v4` lock id is an explicit
parameter; expiry is acquisition time plus 300 s. -/
def LockInfo.new (holder lock_id : String) (now : Int) : LockInfo :=
  { lock_id, holder, acquired_at := now
    expires_at := now + LOCK_EXPIRY_SECS }

/-- `LockInfo::is_expired`: `Utc::now() > self.expires_at`, i.e. the
lock is expired only strictly after its expiry instant. -/
def LockInfo.is_expired (l : LockInfo) (now : Int) : Bool :=
  l.expires_at < now

/-- `LocalStateStore::acquire_lock` (`src/state/local.rs`): fails with
`LockedByOther` when a readable lock blob is present and not expired;
otherwise writes a fresh `LockInfo` (with the supplied holder, or the
generated holder id when the supplied one is empty) and returns it.
The second component is the lock blob after the call; `to_rfc3339` of
the held lock's acquisition time is modelled by the timestamp's decimal
rendering (no claim depends on the date format). -/
def LocalStateStore.acquire_lock (existing : Option LockInfo)
    (holder generated_holder fresh_lock_id : String) (now : Int) :
    Except HalldyllError LockInfo × Option LockInfo :=
  let acquireFresh :
      Except HalldyllError LockInfo × Option LockInfo :=
    let holder_id := if holder.isEmpty then generated_holder else holder
    let lock_info := LockInfo.new holder_id fresh_lock_id now
    (.ok lock_info, some lock_info)
  match existing with
  | some l =>
      if !(l.is_expired now) then
        (.error (.stateLockedByOther l.holder (toString l.acquired_at)),
         some l)
      else acquireFresh
  | none => acquireFresh

/-! ## The planner's shape, stated from the specification

For the refinement claim about plan ordering, the expected action list
is written down independently, following the specification's wording:
all deletes first in diff order, then all pure creates, then one
delete+create pair per update/drift diff whose create depends exactly
on its paired delete's index. -/

/-- The delete section the specification promises: every `Delete` diff,
in diff order, with no dependencies. -/
def specDeleteSection (diff : DiffResult) : List PlannedAction :=
  (diff.diffs.filter (fun d => d.diff_type = .Delete)).map deleteActionOf

/-- The create section the specification promises: every pure `Create`
diff, in diff order, with no dependencies. -/
def specCreateSection (diff : DiffResult) (config : DeployConfig) :
    List PlannedAction :=
  (diff.diffs.filter (fun d => d.diff_type = .Create)).filterMap
    (fun d => (findPodConfig config d.name).map (createActionOf d))

/-- The pair the specification promises for the `k`-th update/drift
diff (`y = (k, (i, d))` with `i` the diff's index): a delete at plan
index `base + 2k` immediately followed by a create depending exactly on
that index. -/
def specPairBody (diff : DiffResult) (config : DeployConfig)
    (base : Nat) (y : Nat × (Nat × ResourceDiff)) : List PlannedAction :=
  match findPodConfig config y.2.2.name with
  | some podConfig =>
      [recreateDeleteAction diff y.2.1 y.2.2,
       recreateCreateAction y.2.2 podConfig (base + 2 * y.1)]
  | none => []

/-- The recreate section the specification promises: for the k-th
update/drift diff (at diff index `i`), a delete at plan index
`base + 2k` followed by a create depending exactly on that index. -/
def specPairSection (diff : DiffResult) (config : DeployConfig)
    (base : Nat) : List PlannedAction :=
  ((diff.diffs.enum.filter (fun x =>
      x.2.diff_type = .Update ∨ x.2.diff_type = .Drift)).enum).flatMap
    (specPairBody diff config base)

/-- Dependencies only ever point at earlier plan indices. -/
def depsEarlier (l : List PlannedAction) : Prop :=
  ∀ i a, l.get? i = some a → ∀ j ∈ a.dependencies, j < i

/-- The claim-side total of `gpu.count` over the plan's `CreatePod`
actions. -/
def planCreateGpuTotal (plan : DeploymentPlan) : Nat :=
  (plan.actions.map (fun a =>
    if a.action_type = .CreatePod then
      ((a.pod_config.map (fun p => p.gpu.count)).getD 0)
    else 0)).sum

/-- The actions the third loop of `from_diff` pushes for one enumerated
diff when the running action count is `n` (none unless the diff is an
update or drift with a findable pod). -/
def pairActionsAt (diff : DiffResult) (config : DeployConfig) (n : Nat)
    (x : Nat × ResourceDiff) : List PlannedAction :=
  if x.2.diff_type = .Update ∨ x.2.diff_type = .Drift then
    match findPodConfig config x.2.name with
    | some podConfig =>
        [recreateDeleteAction diff x.1 x.2,
         recreateCreateAction x.2 podConfig n]
    | none => []
  else []

/-- Specification of a fold that appends position-dependent segments:
each step's segment may depend on the count of actions already
emitted. -/
def pairFoldSpec (g : Nat → (Nat × ResourceDiff) → List PlannedAction) :
    Nat → List (Nat × ResourceDiff) → List PlannedAction
  | _, [] => []
  | n, x :: xs => g n x ++ pairFoldSpec g (n + (g n x).length) xs

/-! ## Concrete fixtures used by witnesses and counterexamples -/

/-- A small desired pod (the spec's S1 `web` pod). -/
def podWeb : PodConfig :=
  { name := "web"
    gpu := { gpu_type := "NVIDIA A40", count := 1, min_vram_gb := none
             fallback := [] }
    ports := [], volumes := []
    runtime := { image := "svc:1.0", env := [], command := none
                 args := none }
    models := [], health_check := none, tags := [] }

/-- A demo project. -/
def projectDemo : ProjectConfig :=
  { name := "demo", environment := "dev", region := none
    cloud_type := .Secure, compute_type := .Gpu }

/-- A demo configuration with the single `web` pod and no
guardrails. -/
def cfgDemo : DeployConfig :=
  { project := projectDemo
    state := { backend := .Local, bucket := none, prefix_key := none
               region := none, path := none }
    pods := [podWeb], guardrails := none }

/-- An observed `web` pod carrying a stale spec hash. -/
def obsWebStale : ObservedPod :=
  { id := "p-1", name := "demo-web", project := some "demo"
    environment := some "dev", pod_name := some "web"
    spec_hash := some "stalehash", status := .Running
    gpu_type := some "NVIDIA A40", gpu_count := 1, image := "svc:1.0"
    endpoints := [], tags := [] }

/-- A provisioner whose calls all succeed. -/
def provOk : Provisioner :=
  { create_pod := fun _ _ _ =>
      .ok { id := "p-1", gpu_type_name := some "NVIDIA A40"
            gpu_count := 1, image_name := "svc:1.0" }
    terminate_pod := fun _ => .ok ()
    stop_pod := fun _ => .ok ()
    resume_pod := fun _ => .ok () }

/-- A provisioner whose create calls fail. -/
def provFailCreate : Provisioner :=
  { create_pod := fun _ _ _ => .error (.genericError "boom")
    terminate_pod := fun _ => .ok ()
    stop_pod := fun _ => .ok ()
    resume_pod := fun _ => .ok () }

/-- A save function that always succeeds. -/
def saveOkFn : DeploymentState → Except HalldyllError Unit :=
  fun _ => .ok ()

/-- A fresh empty state fixture. -/
def stEmpty : DeploymentState := DeploymentState.new "demo" "dev" 0

/-- A non-empty plan that fails guardrails (fixture for the
guardrail-refusal claims). -/
def planBlocked : DeploymentPlan :=
  { created_at := 0, config_hash := "hash-b"
    actions := [{ action_type := .CreatePod, resource_name := "web"
                  pod_config := some podWeb, runpod_id := none
                  reason := "Pod defined in configuration"
                  new_hash := some "hash-b", dependencies := [] }]
    estimated_cost_delta := none
    passes_guardrails := false
    guardrail_violations := ["Plan requires 4 GPUs but max_gpus is 3"] }

/-- An empty plan marked as failing guardrails (fixture for the
empty-plan claim: the guardrail flag is never consulted). -/
def planEmptyBlocked : DeploymentPlan :=
  { created_at := 0, config_hash := "hash-e", actions := []
    estimated_cost_delta := none
    passes_guardrails := false
    guardrail_violations := ["Plan requires 4 GPUs but max_gpus is 3"] }

/-- A lock held by another process whose expiry instant is exactly the
current instant of the counterexample. -/
def lockBoundary : LockInfo :=
  { lock_id := "lock-a", holder := "other-host-1-deadbeef"
    acquired_at := 0, expires_at := 100 }

/-- A second desired pod. -/
def podApi : PodConfig :=
  { name := "api"
    gpu := { gpu_type := "NVIDIA RTX 4090", count := 2
             min_vram_gb := none, fallback := [] }
    ports := [], volumes := []
    runtime := { image := "api:2.0", env := [], command := none
                 args := none }
    models := [], health_check := none, tags := [] }

/-- A configuration with two pods, used by the plan-shape witness. -/
def cfgMix : DeployConfig :=
  { project := projectDemo
    state := { backend := .Local, bucket := none, prefix_key := none
               region := none, path := none }
    pods := [podWeb, podApi], guardrails := none }

/-- A diff exercising all classifications: a no-change, an orphan
delete, a pure create and an update. -/
def diffMix : DiffResult :=
  { diffs :=
      [{ name := "keep", diff_type := .NoChange, details := []
         old_hash := some "kh", new_hash := some "kh" },
       { name := "old", diff_type := .Delete
         details := [{ field := "pod", old_value := some "p-7"
                       new_value := none }]
         old_hash := some "oh", new_hash := none },
       { name := "web", diff_type := .Create
         details := [{ field := "pod", old_value := none
                       new_value := some "web" }]
         old_hash := none, new_hash := some "wh" },
       { name := "api", diff_type := .Update
         details := [{ field := "image", old_value := some "p-9"
                       new_value := some "api:2.0" }]
         old_hash := some "ah-old", new_hash := some "ah" }]
    creates := 1, updates := 1, deletes := 1, unchanged := 1 }

/-- A guardrailed configuration: two pods of two GPUs each against a
limit of three. -/
def cfgGuard : DeployConfig :=
  { project := projectDemo
    state := { backend := .Local, bucket := none, prefix_key := none
               region := none, path := none }
    pods := [{ name := "web"
               gpu := { gpu_type := "NVIDIA A40", count := 2
                        min_vram_gb := none, fallback := [] }
               ports := [], volumes := []
               runtime := { image := "svc:1.0", env := []
                            command := none, args := none }
               models := [], health_check := none, tags := [] },
             { name := "api"
               gpu := { gpu_type := "NVIDIA RTX 4090", count := 2
                        min_vram_gb := none, fallback := [] }
               ports := [], volumes := []
               runtime := { image := "api:2.0", env := []
                            command := none, args := none }
               models := [], health_check := none, tags := [] }]
    guardrails := some { max_hourly_cost := none, max_gpus := some 3
                         ttl_hours := none
                         allow_gpu_fallback := false } }

/-- A diff creating both pods of the guardrailed configuration. -/
def diffGuard : DiffResult :=
  { diffs :=
      [{ name := "web", diff_type := .Create
         details := [{ field := "pod", old_value := none
                       new_value := some "web" }]
         old_hash := none, new_hash := some "wh" },
       { name := "api", diff_type := .Create
         details := [{ field := "pod", old_value := none
                       new_value := some "api" }]
         old_hash := none, new_hash := some "ah" }]
    creates := 2, updates := 0, deletes := 0, unchanged := 0 }

/-- A history entry fixture. -/
def entryDemo : DeploymentHistoryEntry :=
  { timestamp := 5, operation := .Create, config_hash := "h1"
    resources := ["web"], success := true, error := none }

/-! ## Theorems -/

/-- Fidelity check of the SHA-256 model against the standard test
vector for "abc". -/
theorem sha256_vector_abc :
    sha256Hex (strBytes "abc")
      = "ba7816bf8f01cfea414140de5dae2223b00361a396177a9cb410ff61f20015ad" := by
  decide

/-- Fidelity check of the SHA-256 model against the standard test
vector for the empty message. -/
theorem sha256_vector_empty :
    sha256Hex []
      = "e3b0c44298fc1c149afbf4c8996fb92427ae41e4649b934ca495991b7852b855" := by
  decide

/-- Claim C1 (amended): when a desired pod is present in the observed
resources with a spec hash differing from its newly computed hash, the
classification is decided by whether the observed resource carries a
spec-hash tag at all — `Update` when `spec_hash` is present (even
stale), `Drift` when it is absent — regardless of whether a prior
`DeploymentState` record exists. -/
theorem c1_update_requires_observed_hash (config : PodConfig)
    (obs : ObservedPod) (state : Option PodState) (new_hash : String)
    (hne : ¬ obs.spec_hash = some new_hash) :
    (compute_pod_diff config (some obs) state new_hash).diff_type
      = if obs.spec_hash.isSome then DiffType.Update else DiffType.Drift := by
  simp [compute_pod_diff, hne]

/-- Witness for C1's amended theorem at a concrete stale observed
pod. -/
theorem c1_witness :
    (¬ obsWebStale.spec_hash = some "newhash")
    ∧ (compute_pod_diff podWeb (some obsWebStale) none "newhash").diff_type
        = DiffType.Update := by
  refine ⟨by decide, ?_⟩
  have h := c1_update_requires_observed_hash podWeb obsWebStale none
    "newhash" (by decide)
  simpa using h

/-- Claim C1 is false as stated: with prior state absent and an
observed resource whose `spec_hash` is present but stale, the diff is
`Update`, not `Drift`. -/
theorem c1_counterexample :
    (compute_pod_diff podWeb (some obsWebStale) none "newhash").diff_type
        = DiffType.Update
    ∧ ¬ (compute_pod_diff podWeb (some obsWebStale) none "newhash").diff_type
        = DiffType.Drift := by
  decide

/-- Claim C2 (amended): for every non-empty plan with
`passes_guardrails = false`, `execute` returns the `Aborted` error
without invoking the provisioner and without mutating the state at all
— in particular no history entry (failed or otherwise) is appended,
because the guardrail refusal returns before the bookkeeping code. -/
theorem c2_guardrail_refusal (prov : Provisioner)
    (project : ProjectConfig) (continue_on_error : Bool)
    (plan : DeploymentPlan) (st : DeploymentState) (now : Int)
    (hne : ¬ plan.actions = []) (hfail : plan.passes_guardrails = false) :
    PlanExecutor.execute prov project continue_on_error plan st now
      = (.error (.reconcileAborted "Plan violates guardrails"), st, []) := by
  have hemp : plan.actions.isEmpty = false := by
    simpa [List.isEmpty_iff] using hne
  simp [PlanExecutor.execute, hemp, hfail]

/-- Witness for C2's amended theorem at a concrete blocked plan. -/
theorem c2_witness :
    (¬ planBlocked.actions = [])
    ∧ planBlocked.passes_guardrails = false
    ∧ PlanExecutor.execute provOk projectDemo true planBlocked stEmpty 0
        = (.error (.reconcileAborted "Plan violates guardrails"),
           stEmpty, []) :=
  ⟨by decide, by decide,
   c2_guardrail_refusal provOk projectDemo true planBlocked stEmpty 0
     (by decide) (by decide)⟩

/-- Claim C2 is false as stated: on a guardrail refusal the state is
returned untouched — no history entry with `success = false` is
appended (the history stays empty). -/
theorem c2_counterexample :
    (PlanExecutor.execute provOk projectDemo true planBlocked
        stEmpty 0).2.1 = stEmpty
    ∧ (PlanExecutor.execute provOk projectDemo true planBlocked
        stEmpty 0).2.1.history = []
    ∧ stEmpty.history = [] := by
  decide

/-- Claim C10: executing an empty plan returns `Ok` with `success =
true` and all counts zero, leaves the state entirely unchanged, makes
no provisioner call, and does so even when `passes_guardrails` is
false, because the guardrail check is only reached for non-empty
plans. -/
theorem c10_empty_plan_noop (prov : Provisioner)
    (project : ProjectConfig) (continue_on_error : Bool)
    (plan : DeploymentPlan) (st : DeploymentState) (now : Int)
    (h : plan.actions = []) :
    PlanExecutor.execute prov project continue_on_error plan st now
      = (.ok { results := [], total_executed := 0, successful := 0
               failed := 0, skipped := 0, success := true }, st, []) := by
  simp [PlanExecutor.execute, h]

/-- Witness for C10 at a concrete empty plan whose guardrail flag is
false. -/
theorem c10_witness :
    planEmptyBlocked.actions = []
    ∧ planEmptyBlocked.passes_guardrails = false
    ∧ PlanExecutor.execute provOk projectDemo false planEmptyBlocked
        stEmpty 0
      = (.ok { results := [], total_executed := 0, successful := 0
               failed := 0, skipped := 0, success := true },
         stEmpty, []) :=
  ⟨rfl, rfl,
   c10_empty_plan_noop provOk projectDemo false planEmptyBlocked
     stEmpty 0 rfl⟩

/-- The history list after `add_history`. -/
theorem add_history_history (st : DeploymentState)
    (e : DeploymentHistoryEntry) :
    (st.add_history e).history
      = (if 100 ≤ st.history.length then st.history.eraseIdx 0
         else st.history) ++ [e] := rfl

/-- One `add_history` step preserves the 100-entry bound. -/
theorem add_history_len_le (st : DeploymentState)
    (e : DeploymentHistoryEntry) (h : st.history.length ≤ 100) :
    (st.add_history e).history.length ≤ 100 := by
  rw [add_history_history]
  by_cases hc : 100 ≤ st.history.length
  · have hlen : st.history.length = 100 := le_antisymm h hc
    simp [hc, List.length_eraseIdx, hlen]
  · simp [hc]
    omega

/-- Any number of `add_history` steps preserves the 100-entry bound. -/
theorem foldl_add_history_le (entries : List DeploymentHistoryEntry) :
    ∀ st : DeploymentState, st.history.length ≤ 100 →
      ((entries.foldl DeploymentState.add_history st).history.length ≤ 100) := by
  induction entries with
  | nil => intro st h; simpa using h
  | cons e rest ih =>
      intro st h
      simpa using ih (st.add_history e) (add_history_len_le st e h)

/-- Claim C9: for a state whose history holds at most 100 entries,
`add_history` keeps the bound, appends the new entry last, leaves the
history untouched otherwise while below the cap, and evicts exactly the
oldest entry at the cap; consequently any sequence of `add_history`
steps keeps the bound. -/
theorem c9_history_bound (st : DeploymentState)
    (entry : DeploymentHistoryEntry) (h : st.history.length ≤ 100) :
    ((st.add_history entry).history.length ≤ 100
      ∧ (st.add_history entry).history.getLast? = some entry)
    ∧ (st.history.length < 100 →
        (st.add_history entry).history = st.history ++ [entry])
    ∧ (st.history.length = 100 →
        (st.add_history entry).history = st.history.tail ++ [entry])
    ∧ ∀ entries : List DeploymentHistoryEntry,
        ((entries.foldl DeploymentState.add_history
            (st.add_history entry)).history.length ≤ 100) := by
  refine ⟨⟨add_history_len_le st entry h, ?_⟩, ?_, ?_, ?_⟩
  · rw [add_history_history]
    exact List.getLast?_concat _
  · intro hlt
    rw [add_history_history]
    have : ¬ 100 ≤ st.history.length := by omega
    simp [this]
  · intro heq
    rw [add_history_history]
    have : 100 ≤ st.history.length := by omega
    simp [this, List.eraseIdx_zero]
  · intro entries
    exact foldl_add_history_le entries _ (add_history_len_le st entry h)

/-- Witness for C9 at a concrete state and entry. -/
theorem c9_witness :
    stEmpty.history.length ≤ 100
    ∧ (stEmpty.add_history entryDemo).history = stEmpty.history ++ [entryDemo]
    ∧ (stEmpty.add_history entryDemo).history.getLast? = some entryDemo := by
  have h := c9_history_bound stEmpty entryDemo (by decide)
  exact ⟨by decide, h.2.1 (by decide), h.1.2⟩

/-- Claim C7 (amended): `acquire_lock` fails with
`LockedByOther(holder, since)` exactly when a readable lock blob is
present with `now ≤ expires_at` (that is, `is_expired` is strict:
a lock whose expiry instant equals the current instant is still
considered held); when the blob is absent or `expires_at < now` it
writes and returns a fresh `LockInfo` carrying the newly minted lock
id, generating a holder id only when the supplied holder is empty. -/
theorem c7_acquire_lock_expiry (existing : Option LockInfo)
    (holder generated fresh : String) (now : Int) :
    (∀ l, existing = some l → now ≤ l.expires_at →
       LocalStateStore.acquire_lock existing holder generated fresh now
         = (.error (.stateLockedByOther l.holder (toString l.acquired_at)),
            some l))
    ∧ (∀ l, existing = some l → l.expires_at < now →
       LocalStateStore.acquire_lock existing holder generated fresh now
         = (.ok (LockInfo.new
              (if holder.isEmpty then generated else holder) fresh now),
            some (LockInfo.new
              (if holder.isEmpty then generated else holder) fresh now)))
    ∧ (existing = none →
       LocalStateStore.acquire_lock existing holder generated fresh now
         = (.ok (LockInfo.new
              (if holder.isEmpty then generated else holder) fresh now),
            some (LockInfo.new
              (if holder.isEmpty then generated else holder) fresh now))) := by
  refine ⟨?_, ?_, ?_⟩
  · intro l hl hle
    subst hl
    have : l.is_expired now = false := by
      simp [LockInfo.is_expired]
      omega
    simp [LocalStateStore.acquire_lock, this]
  · intro l hl hlt
    subst hl
    have : l.is_expired now = true := by
      simp [LockInfo.is_expired, hlt]
    simp [LocalStateStore.acquire_lock, this]
  · intro hl
    subst hl
    simp [LocalStateStore.acquire_lock]

/-- Witness for C7's amended theorem: a strictly expired lock is
seized, and an absent lock blob is acquired with a generated holder
id. -/
theorem c7_witness :
    LocalStateStore.acquire_lock (some lockBoundary) "me" "gen"
        "fresh-1" 500
      = (.ok (LockInfo.new "me" "fresh-1" 500),
         some (LockInfo.new "me" "fresh-1" 500))
    ∧ LocalStateStore.acquire_lock none "" "host-1-abcd1234" "fresh-2" 7
      = (.ok (LockInfo.new "host-1-abcd1234" "fresh-2" 7),
         some (LockInfo.new "host-1-abcd1234" "fresh-2" 7)) := by
  constructor
  · have h := (c7_acquire_lock_expiry (some lockBoundary) "me" "gen"
      "fresh-1" 500).2.1 lockBoundary rfl (by decide)
    simpa using h
  · have h := (c7_acquire_lock_expiry none "" "host-1-abcd1234"
      "fresh-2" 7).2.2 rfl
    simpa using h

/-- Claim C7 is false as stated at the expiry boundary: a lock blob
whose `expires_at` equals the current time (so not strictly greater)
is NOT seized — acquisition fails with `LockedByOther`. -/
theorem c7_counterexample :
    LocalStateStore.acquire_lock (some lockBoundary) "me" "gen"
        "fresh-1" 100
      = (.error (.stateLockedByOther "other-host-1-deadbeef" "0"),
         some lockBoundary) := by
  decide

/-- Claim C8: `load` returns the empty optional exactly for a missing
blob; a blob that exists but fails to parse is a `Corrupted` error,
never `None`; a valid blob loads as `Some`. -/
theorem c8_load_semantics :
    (∀ blob, LocalStateStore.load blob = .ok none ↔ blob = .missing)
    ∧ (∀ raw, LocalStateStore.load (.invalid raw)
        = .error (.stateCorrupted ("Failed to parse state file: " ++ raw)))
    ∧ (∀ st, LocalStateStore.load (.valid st) = .ok (some st))
    ∧ LocalStateStore.load .missing = .ok none := by
  refine ⟨?_, fun _ => rfl, fun _ => rfl, rfl⟩
  intro blob
  cases blob <;> simp [LocalStateStore.load]

/-- Two lists sorted by a key are equal whenever they are permutations
of each other and the keys are pairwise distinct. -/
theorem sorted_key_eq_of_perm {α K : Type} [LinearOrder K] (k : α → K) :
    ∀ l₁ l₂ : List α, l₁.Perm l₂ →
      l₁.Sorted (fun a b => k a ≤ k b) →
      l₂.Sorted (fun a b => k a ≤ k b) →
      (l₁.map k).Nodup → l₁ = l₂ := by
  intro l₁
  induction l₁ with
  | nil =>
      intro l₂ h _ _ _
      exact (h.symm.eq_nil).symm
  | cons a t₁ ih =>
      intro l₂ h s₁ s₂ nd
      cases l₂ with
      | nil =>
          have := h.length_eq
          simp at this
      | cons b t₂ =>
          by_cases hab : a = b
          · subst hab
            have hnd : (t₁.map k).Nodup := by
              rw [List.map_cons] at nd
              exact (List.nodup_cons.mp nd).2
            rw [ih t₂ h.cons_inv (List.sorted_cons.mp s₁).2
              (List.sorted_cons.mp s₂).2 hnd]
          · exfalso
            have hb₁ : b ∈ a :: t₁ := h.mem_iff.mpr (List.mem_cons_self b t₂)
            have hbt : b ∈ t₁ := by
              rcases List.mem_cons.mp hb₁ with h' | h'
              · exact absurd h'.symm hab
              · exact h'
            have ha₂ : a ∈ b :: t₂ := h.mem_iff.mp (List.mem_cons_self a t₁)
            have hat : a ∈ t₂ := by
              rcases List.mem_cons.mp ha₂ with h' | h'
              · exact absurd h' hab
              · exact h'
            have hk : k a = k b :=
              le_antisymm ((List.sorted_cons.mp s₁).1 b hbt)
                ((List.sorted_cons.mp s₂).1 a hat)
            rw [List.map_cons] at nd
            apply (List.nodup_cons.mp nd).1
            rw [hk]
            exact List.mem_map_of_mem k hbt

/-- Sorting by a key is invariant under permutation of the input when
the keys are pairwise distinct. -/
theorem sortByKey_congr_perm {α K : Type} [LinearOrder K] (k : α → K)
    (l₁ l₂ : List α) (h : l₁.Perm l₂) (nd : (l₁.map k).Nodup) :
    sortByKey k l₁ = sortByKey k l₂ := by
  haveI ht : IsTotal α (fun a b => k a ≤ k b) :=
    ⟨fun a b => le_total (k a) (k b)⟩
  haveI htr : IsTrans α (fun a b => k a ≤ k b) :=
    ⟨fun _ _ _ hab hbc => le_trans hab hbc⟩
  apply sorted_key_eq_of_perm k
  · exact (List.perm_insertionSort _ l₁).trans
      (h.trans (List.perm_insertionSort _ l₂).symm)
  · exact List.sorted_insertionSort _ l₁
  · exact List.sorted_insertionSort _ l₂
  · exact (((List.perm_insertionSort _ l₁).symm).map k).nodup nd

/-- Sorting a list of naturals is invariant under permutation. -/
theorem sortByKey_id_congr_perm (l₁ l₂ : List Nat) (h : l₁.Perm l₂) :
    sortByKey id l₁ = sortByKey id l₂ := by
  haveI ht : IsTotal Nat (fun a b : Nat => id a ≤ id b) :=
    ⟨fun a b => le_total a b⟩
  haveI htr : IsTrans Nat (fun a b : Nat => id a ≤ id b) :=
    ⟨fun _ _ _ hab hbc => le_trans hab hbc⟩
  haveI ha : IsAntisymm Nat (fun a b : Nat => id a ≤ id b) :=
    ⟨fun _ _ hab hba => le_antisymm hab hba⟩
  exact List.eq_of_perm_of_sorted
    ((List.perm_insertionSort _ l₁).trans
      (h.trans (List.perm_insertionSort _ l₂).symm))
    (List.sorted_insertionSort _ l₁) (List.sorted_insertionSort _ l₂)

/-- Claim C6: the per-pod hash is deterministic (it is a function) and
invariant under reordering of the pod's ports, volumes, environment
map and tags map: two pod configurations equal except for the declared
order of those four collections (with volume names, environment keys
and tag keys pairwise distinct, as the validator and the map types
guarantee) have identical per-pod hashes. -/
theorem c6_hash_pod_order_insensitive (p q : PodConfig)
    (hname : p.name = q.name) (hgpu : p.gpu = q.gpu)
    (hports : p.ports.Perm q.ports)
    (hvol : p.volumes.Perm q.volumes)
    (hvolnd : (p.volumes.map VolumeConfig.name).Nodup)
    (himg : p.runtime.image = q.runtime.image)
    (henv : p.runtime.env.Perm q.runtime.env)
    (henvnd : (p.runtime.env.map Prod.fst).Nodup)
    (hcmd : p.runtime.command = q.runtime.command)
    (hargs : p.runtime.args = q.runtime.args)
    (hmodels : p.models = q.models)
    (htags : p.tags.Perm q.tags)
    (htagsnd : (p.tags.map Prod.fst).Nodup) :
    hash_pod p = hash_pod q := by
  unfold hash_pod
  congr 1
  congr 1
  unfold hashPodChunks
  rw [hname, hgpu, himg, hcmd, hargs, hmodels,
    sortByKey_id_congr_perm _ _ (hports.map PortConfig.port),
    sortByKey_congr_perm VolumeConfig.name _ _ hvol hvolnd,
    sortByKey_congr_perm Prod.fst _ _ henv henvnd,
    sortByKey_congr_perm Prod.fst _ _ htags htagsnd]

/-- A reordered variant of a pod with several ports, volumes,
environment entries and tags. -/
def podRich : PodConfig :=
  { name := "rich"
    gpu := { gpu_type := "NVIDIA A40", count := 2, min_vram_gb := some 48
             fallback := ["NVIDIA RTX 4090"] }
    ports := [{ port := 80, protocol := .Http, name := some "http" },
              { port := 22, protocol := .Tcp, name := none }]
    volumes := [{ name := "data", mount := "/data", persistent := true
                  size_gb := some 50 },
                { name := "cache", mount := "/cache", persistent := false
                  size_gb := none }]
    runtime := { image := "svc:2.0"
                 env := [("A", "1"), ("B", "2")]
                 command := some ["run"], args := some ["--fast"] }
    models := [], health_check := none
    tags := [("team", "ml"), ("tier", "prod")] }

/-- The same pod with ports, volumes, environment and tags declared in
a different order. -/
def podRichShuffled : PodConfig :=
  { name := "rich"
    gpu := { gpu_type := "NVIDIA A40", count := 2, min_vram_gb := some 48
             fallback := ["NVIDIA RTX 4090"] }
    ports := [{ port := 22, protocol := .Tcp, name := none },
              { port := 80, protocol := .Http, name := some "http" }]
    volumes := [{ name := "cache", mount := "/cache", persistent := false
                  size_gb := none },
                { name := "data", mount := "/data", persistent := true
                  size_gb := some 50 }]
    runtime := { image := "svc:2.0"
                 env := [("B", "2"), ("A", "1")]
                 command := some ["run"], args := some ["--fast"] }
    models := [], health_check := none
    tags := [("tier", "prod"), ("team", "ml")] }

/-- Witness for C6: the concrete reordered pods hash identically. -/
theorem c6_witness :
    podRich.ports.Perm podRichShuffled.ports
    ∧ podRich.volumes.Perm podRichShuffled.volumes
    ∧ podRich.runtime.env.Perm podRichShuffled.runtime.env
    ∧ podRich.tags.Perm podRichShuffled.tags
    ∧ hash_pod podRich = hash_pod podRichShuffled := by
  refine ⟨by decide, by decide, by decide, by decide, ?_⟩
  exact c6_hash_pod_order_insensitive podRich podRichShuffled rfl rfl
    (by decide) (by decide) (by decide) rfl (by decide) (by decide)
    rfl rfl rfl (by decide) (by decide)

/-- Two folds agree when their step functions agree pointwise. -/
theorem foldl_congr_fun {σ β : Type} (f g : σ → β → σ)
    (h : ∀ acc d, f acc d = g acc d) :
    ∀ (l : List β) (init : σ), l.foldl f init = l.foldl g init := by
  have hf : f = g := funext fun a => funext fun d => h a d
  intro l init
  rw [hf]

/-- A fold that appends a per-element segment is `flatMap`. -/
theorem foldl_append_flatMap {β γ : Type} (g : β → List γ) :
    ∀ (l : List β) (init : List γ),
      l.foldl (fun acc d => acc ++ g d) init = init ++ l.flatMap g := by
  intro l
  induction l with
  | nil => intro init; simp
  | cons x xs ih =>
      intro init
      simp only [List.foldl_cons, List.flatMap_cons]
      rw [ih (init ++ g x), List.append_assoc]

/-- Guarded singleton `flatMap` is `filter` followed by `map`. -/
theorem flatMap_ite_singleton {β γ : Type} (p : β → Prop)
    [DecidablePred p] (f : β → γ) :
    ∀ l : List β,
      l.flatMap (fun d => if p d then [f d] else [])
        = (l.filter (fun d => p d)).map f := by
  intro l
  induction l with
  | nil => rfl
  | cons x xs ih => by_cases hx : p x <;> simp [hx, ih, List.filter_cons]

/-- Guarded `flatMap` is `flatMap` over the filtered list. -/
theorem flatMap_ite {β γ : Type} (p : β → Prop) [DecidablePred p]
    (g : β → List γ) :
    ∀ l : List β,
      l.flatMap (fun d => if p d then g d else [])
        = (l.filter (fun d => p d)).flatMap g := by
  intro l
  induction l with
  | nil => rfl
  | cons x xs ih => by_cases hx : p x <;> simp [hx, ih, List.filter_cons]

/-- `flatMap` of an optional singleton is `filterMap`. -/
theorem flatMap_find_map {β γ : Type} (f : β → Option PodConfig)
    (g : β → PodConfig → γ) :
    ∀ l : List β,
      l.flatMap (fun d =>
          match f d with
          | some podConfig => [g d podConfig]
          | none => [])
        = l.filterMap (fun d => (f d).map (g d)) := by
  intro l
  induction l with
  | nil => rfl
  | cons x xs ih => cases hf : f x <;> simp [hf, ih]

/-- A fold appending position-dependent segments is `pairFoldSpec`. -/
theorem foldl_append_dep
    (g : Nat → (Nat × ResourceDiff) → List PlannedAction) :
    ∀ (l : List (Nat × ResourceDiff)) (init : List PlannedAction),
      l.foldl (fun acc x => acc ++ g acc.length x) init
        = init ++ pairFoldSpec g init.length l := by
  intro l
  induction l with
  | nil => intro init; simp [pairFoldSpec]
  | cons x xs ih =>
      intro init
      simp only [List.foldl_cons, pairFoldSpec]
      rw [ih (init ++ g init.length x), List.append_assoc,
        List.length_append]

/-- Shifting the start of an `enumFrom` into the mapped function. -/
theorem enumFrom_succ_flatMap {β γ : Type} (f : Nat × β → List γ) :
    ∀ (t : List β) (m : Nat),
      (t.enumFrom (m + 1)).flatMap f
        = (t.enumFrom m).flatMap (fun y => f (y.1 + 1, y.2)) := by
  intro t
  induction t with
  | nil => intro m; rfl
  | cons x t ih =>
      intro m
      rw [List.enumFrom_cons, List.enumFrom_cons]
      simp only [List.flatMap_cons]
      rw [ih (m + 1)]

/-- Shifting the enumeration start of the pair section's body by one is
the same as raising its base index by two (each pair occupies two plan
slots). -/
theorem specPairBody_shift (diff : DiffResult) (config : DeployConfig)
    (n : Nat) (y : Nat × (Nat × ResourceDiff)) :
    specPairBody diff config n (y.1 + 1, y.2)
      = specPairBody diff config (n + 2) y := by
  unfold specPairBody
  cases findPodConfig config y.2.2.name with
  | some podConfig =>
      simp only
      have : n + 2 * (y.1 + 1) = n + 2 + 2 * y.1 := by omega
      rw [this]
  | none => rfl

/-- The position-dependent pair fold matches the specification's
enumerated recreate section, provided every update/drift diff resolves
to a pod of the configuration. -/
theorem pairFoldSpec_eq_spec (diff : DiffResult) (config : DeployConfig) :
    ∀ (l : List (Nat × ResourceDiff)) (n : Nat),
      (∀ x ∈ l, (x.2.diff_type = .Update ∨ x.2.diff_type = .Drift) →
        (findPodConfig config x.2.name).isSome) →
      pairFoldSpec (pairActionsAt diff config) n l
        = ((l.filter (fun x =>
              x.2.diff_type = .Update ∨ x.2.diff_type = .Drift)).enum).flatMap
            (specPairBody diff config n) := by
  intro l
  induction l with
  | nil => intro n _; rfl
  | cons x xs ih =>
      intro n h
      have hxs : ∀ y ∈ xs,
          (y.2.diff_type = .Update ∨ y.2.diff_type = .Drift) →
          (findPodConfig config y.2.name).isSome :=
        fun y hy => h y (List.mem_cons_of_mem x hy)
      by_cases hupd : x.2.diff_type = .Update ∨ x.2.diff_type = .Drift
      · obtain ⟨podConfig, hpc⟩ :=
          Option.isSome_iff_exists.mp (h x (List.mem_cons_self x xs) hupd)
        have hg : pairActionsAt diff config n x
            = [recreateDeleteAction diff x.1 x.2,
               recreateCreateAction x.2 podConfig n] := by
          simp [pairActionsAt, hupd, hpc]
        have hlen : (pairActionsAt diff config n x).length = 2 := by
          rw [hg]
          rfl
        rw [pairFoldSpec, hlen, hg, ih (n + 2) hxs,
          List.filter_cons_of_pos (by simpa using hupd), List.enum_cons]
        simp only [List.flatMap_cons]
        have hhead : specPairBody diff config n (0, x)
            = [recreateDeleteAction diff x.1 x.2,
               recreateCreateAction x.2 podConfig n] := by
          simp [specPairBody, hpc]
        rw [hhead]
        have htail :
            ((xs.filter (fun z =>
                z.2.diff_type = .Update ∨ z.2.diff_type = .Drift)).enumFrom
                  1).flatMap (specPairBody diff config n)
              = ((xs.filter (fun z =>
                  z.2.diff_type = .Update ∨ z.2.diff_type = .Drift)).enum).flatMap
                  (specPairBody diff config (n + 2)) := by
          rw [show (1 : Nat) = 0 + 1 from rfl,
            enumFrom_succ_flatMap (specPairBody diff config n) _ 0]
          exact congrArg _ (funext fun y => specPairBody_shift diff config n y)
        rw [htail]
      · have hg : pairActionsAt diff config n x = [] := by
          simp [pairActionsAt, hupd]
        rw [pairFoldSpec, hg]
        simp only [List.nil_append, List.length_nil, Nat.add_zero]
        rw [ih n hxs, List.filter_cons_of_neg (by simpa using hupd)]

/-- The empty action list has well-founded dependencies. -/
theorem depsEarlier_nil : depsEarlier [] := by
  intro i a ha
  simp at ha

/-- Appending one dependency-free action preserves well-founded
dependencies. -/
theorem depsEarlier_append_single (l : List PlannedAction)
    (h : depsEarlier l) (a : PlannedAction)
    (ha : a.dependencies = []) : depsEarlier (l ++ [a]) := by
  intro i b hb j hj
  by_cases hi : i < l.length
  · rw [List.get?_append hi] at hb
    exact h i b hb j hj
  · have hle : l.length ≤ i := Nat.le_of_not_lt hi
    rw [List.get?_append_right hle] at hb
    cases hd : i - l.length with
    | zero =>
        rw [hd] at hb
        have hab : a = b := by simpa using hb
        rw [← hab, ha] at hj
        simp at hj
    | succ d =>
        rw [hd] at hb
        simp at hb

/-- Appending a delete+create pair whose create depends exactly on the
delete's index preserves well-founded dependencies. -/
theorem depsEarlier_append_pair (l : List PlannedAction)
    (h : depsEarlier l) (a b : PlannedAction)
    (ha : a.dependencies = []) (hb : b.dependencies = [l.length]) :
    depsEarlier (l ++ [a, b]) := by
  intro i c hc j hj
  by_cases hi : i < l.length
  · rw [List.get?_append hi] at hc
    exact h i c hc j hj
  · have hle : l.length ≤ i := Nat.le_of_not_lt hi
    rw [List.get?_append_right hle] at hc
    cases hd : i - l.length with
    | zero =>
        rw [hd] at hc
        have hac : a = c := by simpa using hc
        rw [← hac, ha] at hj
        simp at hj
    | succ d =>
        cases d with
        | zero =>
            rw [hd] at hc
            have hbc : b = c := by simpa using hc
            rw [← hbc, hb] at hj
            have hj' : j = l.length := by simpa using hj
            omega
        | succ d' =>
            rw [hd] at hc
            simp at hc

/-- A fold preserves any invariant its step preserves. -/
theorem foldl_preserves {σ β : Type} (f : σ → β → σ) (P : σ → Prop)
    (hstep : ∀ acc x, P acc → P (f acc x)) :
    ∀ (l : List β) (init : σ), P init → P (l.foldl f init) := by
  intro l
  induction l with
  | nil => intro init h; exact h
  | cons x xs ih => intro init h; exact ih (f init x) (hstep init x h)

/-- Claim C4: for every diff whose actionable entries name pods of the
configuration, the plan lists all deletes first in diff order with no
dependencies, then all pure creates with no dependencies, then per
update/drift diff a dependency-free delete immediately followed by a
create depending exactly on that delete's index; no-change diffs
contribute nothing, and every dependency references an earlier plan
index. -/
theorem c4_plan_shape (diff : DiffResult) (config : DeployConfig)
    (config_hash : String) (now : Int)
    (hfind : ∀ d ∈ diff.diffs,
      (d.diff_type = .Create ∨ d.diff_type = .Update ∨
        d.diff_type = .Drift) →
      (findPodConfig config d.name).isSome) :
    (DeploymentPlan.from_diff diff config config_hash now).actions
      = specDeleteSection diff ++ specCreateSection diff config
          ++ specPairSection diff config
              (specDeleteSection diff
                ++ specCreateSection diff config).length
    ∧ depsEarlier
        (DeploymentPlan.from_diff diff config config_hash now).actions := by
  have hstep1 :
      (fun (acc : List PlannedAction) d =>
        if d.diff_type = .Delete then acc ++ [deleteActionOf d] else acc)
      = fun acc d =>
          acc ++ (if d.diff_type = .Delete then [deleteActionOf d]
                  else []) := by
    funext acc d
    split <;> simp
  have hstep2 :
      (fun (acc : List PlannedAction) d =>
        if d.diff_type = .Create then
          match findPodConfig config d.name with
          | some podConfig => acc ++ [createActionOf d podConfig]
          | none => acc
        else acc)
      = fun acc d =>
          acc ++ (if d.diff_type = .Create then
            match findPodConfig config d.name with
            | some podConfig => [createActionOf d podConfig]
            | none => []
          else []) := by
    funext acc d
    split
    · cases findPodConfig config d.name <;> simp
    · simp
  have hstep3 :
      (fun (acc : List PlannedAction) (x : Nat × ResourceDiff) =>
        if x.2.diff_type = .Update ∨ x.2.diff_type = .Drift then
          match findPodConfig config x.2.name with
          | some podConfig =>
              acc ++ [recreateDeleteAction diff x.1 x.2,
                      recreateCreateAction x.2 podConfig acc.length]
          | none => acc
        else acc)
      = fun acc x => acc ++ pairActionsAt diff config acc.length x := by
    funext acc x
    unfold pairActionsAt
    split
    · cases findPodConfig config x.2.name <;> simp
    · simp
  have h1 :
      diff.diffs.foldl (fun acc d =>
        if d.diff_type = .Delete then acc ++ [deleteActionOf d]
        else acc) []
      = specDeleteSection diff := by
    rw [hstep1, foldl_append_flatMap, List.nil_append,
      flatMap_ite_singleton (fun d => d.diff_type = .Delete)
        deleteActionOf]
    rfl
  have h2 :
      diff.diffs.foldl (fun acc d =>
        if d.diff_type = .Create then
          match findPodConfig config d.name with
          | some podConfig => acc ++ [createActionOf d podConfig]
          | none => acc
        else acc) (specDeleteSection diff)
      = specDeleteSection diff ++ specCreateSection diff config := by
    rw [hstep2, foldl_append_flatMap,
      flatMap_ite (fun d : ResourceDiff => d.diff_type = DiffType.Create)
        (fun d => match findPodConfig config d.name with
          | some podConfig => [createActionOf d podConfig]
          | none => []),
      flatMap_find_map (fun d : ResourceDiff => findPodConfig config d.name)
        (fun d podConfig => createActionOf d podConfig)]
    rfl
  have hfind' : ∀ x ∈ diff.diffs.enum,
      (x.2.diff_type = .Update ∨ x.2.diff_type = .Drift) →
      (findPodConfig config x.2.name).isSome := by
    intro x hx hupd
    have hmem : x.2 ∈ diff.diffs :=
      List.get?_mem (List.mem_enum_iff_get?.mp hx)
    exact hfind x.2 hmem (Or.inr hupd)
  have h3 :
      diff.diffs.enum.foldl (fun acc (x : Nat × ResourceDiff) =>
        if x.2.diff_type = .Update ∨ x.2.diff_type = .Drift then
          match findPodConfig config x.2.name with
          | some podConfig =>
              acc ++ [recreateDeleteAction diff x.1 x.2,
                      recreateCreateAction x.2 podConfig acc.length]
          | none => acc
        else acc)
        (specDeleteSection diff ++ specCreateSection diff config)
      = specDeleteSection diff ++ specCreateSection diff config
          ++ specPairSection diff config
              (specDeleteSection diff
                ++ specCreateSection diff config).length := by
    rw [hstep3, foldl_append_dep (pairActionsAt diff config),
      pairFoldSpec_eq_spec diff config diff.diffs.enum
        (specDeleteSection diff
          ++ specCreateSection diff config).length hfind']
    rfl
  have hacts :
      (DeploymentPlan.from_diff diff config config_hash now).actions
        = specDeleteSection diff ++ specCreateSection diff config
            ++ specPairSection diff config
                (specDeleteSection diff
                  ++ specCreateSection diff config).length := by
    show diff.diffs.enum.foldl _
        (diff.diffs.foldl _ (diff.diffs.foldl _ [])) = _
    rw [h1, h2, h3]
  refine ⟨hacts, ?_⟩
  show depsEarlier (diff.diffs.enum.foldl _
    (diff.diffs.foldl _ (diff.diffs.foldl _ [])))
  apply foldl_preserves _ depsEarlier
  · intro acc x hP
    split
    · cases findPodConfig config x.2.name with
      | some podConfig => exact depsEarlier_append_pair acc hP _ _ rfl rfl
      | none => exact hP
    · exact hP
  apply foldl_preserves _ depsEarlier
  · intro acc d hP
    split
    · cases findPodConfig config d.name with
      | some podConfig => exact depsEarlier_append_single acc hP _ rfl
      | none => exact hP
    · exact hP
  apply foldl_preserves _ depsEarlier
  · intro acc d hP
    split
    · exact depsEarlier_append_single acc hP _ rfl
    · exact hP
  exact depsEarlier_nil

/-- Witness for C4 at a concrete mixed diff. -/
theorem c4_witness :
    (∀ d ∈ diffMix.diffs,
      (d.diff_type = .Create ∨ d.diff_type = .Update ∨
        d.diff_type = .Drift) →
      (findPodConfig cfgMix d.name).isSome)
    ∧ (DeploymentPlan.from_diff diffMix cfgMix "doc-hash" 0).actions
        = specDeleteSection diffMix ++ specCreateSection diffMix cfgMix
            ++ specPairSection diffMix cfgMix
                (specDeleteSection diffMix
                  ++ specCreateSection diffMix cfgMix).length := by
  refine ⟨by decide, ?_⟩
  exact (c4_plan_shape diffMix cfgMix "doc-hash" 0 (by decide)).1

/-- In a plan built by `from_diff`, only `CreatePod` actions carry a
pod configuration. -/
theorem fromDiff_podConfig_only_creates (diff : DiffResult)
    (config : DeployConfig) (config_hash : String) (now : Int) :
    ∀ a ∈ (DeploymentPlan.from_diff diff config config_hash now).actions,
      a.pod_config.isSome → a.action_type = .CreatePod := by
  show ∀ (a : PlannedAction),
    a ∈ diff.diffs.enum.foldl _
      (diff.diffs.foldl _ (diff.diffs.foldl _ ([] : List PlannedAction))) →
    a.pod_config.isSome = true → a.action_type = ActionType.CreatePod
  have hP : ∀ (l : List PlannedAction)
      (h : ∀ a ∈ l, a.pod_config.isSome → a.action_type = .CreatePod)
      (xs : List PlannedAction)
      (hxs : ∀ a ∈ xs, a.pod_config.isSome → a.action_type = .CreatePod),
      ∀ a ∈ l ++ xs, a.pod_config.isSome → a.action_type = .CreatePod := by
    intro l h xs hxs a ha
    rcases List.mem_append.mp ha with h' | h'
    · exact h a h'
    · exact hxs a h'
  apply foldl_preserves _
    (fun l : List PlannedAction => ∀ a ∈ l,
      a.pod_config.isSome = true → a.action_type = ActionType.CreatePod)
  · intro acc x hacc
    split
    · cases findPodConfig config x.2.name with
      | some podConfig =>
          refine hP acc hacc _ ?_
          intro a ha
          rcases List.mem_cons.mp ha with h' | h'
          · intro hs
            rw [h'] at hs
            simp [recreateDeleteAction] at hs
          · have : a = recreateCreateAction x.2 podConfig acc.length := by
              simpa using h'
            intro _
            rw [this]
            rfl
      | none => exact hacc
    · exact hacc
  apply foldl_preserves _
    (fun l : List PlannedAction => ∀ a ∈ l,
      a.pod_config.isSome = true → a.action_type = ActionType.CreatePod)
  · intro acc d hacc
    split
    · cases findPodConfig config d.name with
      | some podConfig =>
          refine hP acc hacc _ ?_
          intro a ha
          have : a = createActionOf d podConfig := by simpa using ha
          intro _
          rw [this]
          rfl
      | none => exact hacc
    · exact hacc
  apply foldl_preserves _
    (fun l : List PlannedAction => ∀ a ∈ l,
      a.pod_config.isSome = true → a.action_type = ActionType.CreatePod)
  · intro acc d hacc
    split
    · refine hP acc hacc _ ?_
      intro a ha
      have : a = deleteActionOf d := by simpa using ha
      intro hs
      rw [this] at hs
      simp [deleteActionOf] at hs
    · exact hacc
  intro a ha
  simp at ha

/-- When only create actions carry pod configurations, the executor's
GPU total over carried configurations equals the total over create
actions. -/
theorem gpu_total_eq_create_total (l : List PlannedAction)
    (h : ∀ a ∈ l, a.pod_config.isSome → a.action_type = .CreatePod) :
    ((l.filterMap (·.pod_config)).map (fun p => p.gpu.count)).sum
      = (l.map (fun a =>
          if a.action_type = .CreatePod then
            ((a.pod_config.map (fun p => p.gpu.count)).getD 0)
          else 0)).sum := by
  induction l with
  | nil => rfl
  | cons a t ih =>
      have ht : ∀ b ∈ t, b.pod_config.isSome → b.action_type = .CreatePod :=
        fun b hb => h b (List.mem_cons_of_mem a hb)
      cases hpc : a.pod_config with
      | none => simp [List.filterMap_cons, hpc, ih ht]
      | some podConfig =>
          have hct : a.action_type = .CreatePod :=
            h a (List.mem_cons_self a t) (by simp [hpc])
          simp [List.filterMap_cons, hpc, hct, ih ht]

/-- Claim C5: with `max_gpus` set, a plan built from a diff fails
guardrails exactly when the sum of `gpu.count` over its create actions
exceeds the limit, and in that case the single violation string
mentions both the total and the limit; otherwise no GPU-quota
violation is emitted. -/
theorem c5_gpu_guardrail (diff : DiffResult) (config : DeployConfig)
    (config_hash : String) (now : Int) (g : GuardrailsConfig) (m : Nat)
    (hg : config.guardrails = some g) (hm : g.max_gpus = some m) :
    ((DeploymentPlan.from_diff diff config config_hash now).passes_guardrails
        = false
      ↔ m < planCreateGpuTotal
          (DeploymentPlan.from_diff diff config config_hash now))
    ∧ (m < planCreateGpuTotal
          (DeploymentPlan.from_diff diff config config_hash now) →
        (DeploymentPlan.from_diff diff config config_hash now).guardrail_violations
          = ["Plan requires "
              ++ toString (planCreateGpuTotal
                  (DeploymentPlan.from_diff diff config config_hash now))
              ++ " GPUs but max_gpus is " ++ toString m]
        ∧ ∀ v ∈ (DeploymentPlan.from_diff diff config
            config_hash now).guardrail_violations,
            (toString (planCreateGpuTotal
                (DeploymentPlan.from_diff diff config
                  config_hash now))).data <:+: v.data
            ∧ (toString m).data <:+: v.data)
    ∧ (planCreateGpuTotal
          (DeploymentPlan.from_diff diff config config_hash now) ≤ m →
        (DeploymentPlan.from_diff diff config
          config_hash now).guardrail_violations = []) := by
  have htot :
      (((DeploymentPlan.from_diff diff config config_hash
          now).actions.filterMap (·.pod_config)).map
        (fun p => p.gpu.count)).sum
      = planCreateGpuTotal
          (DeploymentPlan.from_diff diff config config_hash now) :=
    gpu_total_eq_create_total _
      (fromDiff_podConfig_only_creates diff config config_hash now)
  have hcg : check_guardrails config
      (DeploymentPlan.from_diff diff config config_hash now).actions
      ((diff.diffs.foldl (fun acc d =>
        if d.diff_type = DiffType.Delete then acc ++ [deleteActionOf d]
        else acc) []).length)
      = ((if m < planCreateGpuTotal
            (DeploymentPlan.from_diff diff config config_hash now) then
          (["Plan requires "
            ++ toString (planCreateGpuTotal
                (DeploymentPlan.from_diff diff config config_hash now))
            ++ " GPUs but max_gpus is " ++ toString m] : List String)
          else []).isEmpty,
         (if m < planCreateGpuTotal
            (DeploymentPlan.from_diff diff config config_hash now) then
          ["Plan requires "
            ++ toString (planCreateGpuTotal
                (DeploymentPlan.from_diff diff config config_hash now))
            ++ " GPUs but max_gpus is " ++ toString m]
          else [] : List String)) := by
    unfold check_guardrails
    simp only [hg, hm, check_cost_guardrails]
    rw [htot]
  have hviol :
      (DeploymentPlan.from_diff diff config
        config_hash now).guardrail_violations
      = if m < planCreateGpuTotal
            (DeploymentPlan.from_diff diff config config_hash now) then
          ["Plan requires "
            ++ toString (planCreateGpuTotal
                (DeploymentPlan.from_diff diff config config_hash now))
            ++ " GPUs but max_gpus is " ++ toString m]
        else [] := by
    have hpr : (DeploymentPlan.from_diff diff config
        config_hash now).guardrail_violations
        = (check_guardrails config
            (DeploymentPlan.from_diff diff config config_hash now).actions
            ((diff.diffs.foldl (fun acc d =>
              if d.diff_type = DiffType.Delete then
                acc ++ [deleteActionOf d]
              else acc) []).length)).2 := rfl
    rw [hpr, hcg]
  have hpass :
      (DeploymentPlan.from_diff diff config
        config_hash now).passes_guardrails
      = (if m < planCreateGpuTotal
            (DeploymentPlan.from_diff diff config config_hash now) then
          (["Plan requires "
            ++ toString (planCreateGpuTotal
                (DeploymentPlan.from_diff diff config config_hash now))
            ++ " GPUs but max_gpus is " ++ toString m] : List String)
        else []).isEmpty := by
    have hpr : (DeploymentPlan.from_diff diff config
        config_hash now).passes_guardrails
        = (check_guardrails config
            (DeploymentPlan.from_diff diff config config_hash now).actions
            ((diff.diffs.foldl (fun acc d =>
              if d.diff_type = DiffType.Delete then
                acc ++ [deleteActionOf d]
              else acc) []).length)).1 := rfl
    rw [hpr, hcg]
  refine ⟨?_, ?_, ?_⟩
  · by_cases hmt : m < planCreateGpuTotal
        (DeploymentPlan.from_diff diff config config_hash now)
    · simp [hpass, hmt]
    · simp [hpass, hmt]
  · intro hmt
    rw [hviol, if_pos hmt]
    refine ⟨rfl, ?_⟩
    intro v hv
    have hveq : v = "Plan requires "
        ++ toString (planCreateGpuTotal
            (DeploymentPlan.from_diff diff config config_hash now))
        ++ " GPUs but max_gpus is " ++ toString m := by
      simpa using hv
    rw [hveq]
    constructor
    · simp only [String.data_append, List.append_assoc]
      exact List.infix_append' _ _ _
    · simp only [String.data_append, List.append_assoc]
      exact ((List.suffix_append _ _).trans
        ((List.suffix_append _ _).trans (List.suffix_append _ _))).isInfix
  · intro hle
    rw [hviol, if_neg (Nat.not_lt.mpr hle)]

/-- Witness for C5: the spec's S6 scenario — two creates of two GPUs
each against a limit of three — fails guardrails with a violation
naming 4 and 3. -/
theorem c5_witness :
    cfgGuard.guardrails = some { max_hourly_cost := none
                                 max_gpus := some 3, ttl_hours := none
                                 allow_gpu_fallback := false }
    ∧ planCreateGpuTotal (DeploymentPlan.from_diff diffGuard cfgGuard
        "doc-hash" 0) = 4
    ∧ (DeploymentPlan.from_diff diffGuard cfgGuard
        "doc-hash" 0).passes_guardrails = false := by
  refine ⟨rfl, by decide, ?_⟩
  exact ((c5_gpu_guardrail diffGuard cfgGuard "doc-hash" 0 _ 3 rfl
    rfl).1).mpr (by decide)

/-- Claim C3 (amended): within one reconcile run the observer's
`list_project_pods` is invoked exactly once, before the first attempt;
every retry attempt re-computes its diff against that same observation
(only the in-memory state changes between attempts), rather than
reading fresh observed state per attempt. -/
theorem c3_single_observation (config : DeployConfig)
    (prov : Provisioner)
    (load_result : Except HalldyllError (Option DeploymentState))
    (loaded : Option DeploymentState)
    (save_result : DeploymentState → Except HalldyllError Unit)
    (observed_pods : List ObservedPod) (max_attempts : Nat) (now : Int)
    (h : load_result = Except.ok loaded) :
    (Reconciler.reconcile config prov load_result save_result
        observed_pods max_attempts now).observer_calls = 1 := by
  subst h
  rfl

/-- Witness for C3's amended theorem at a concrete run. -/
theorem c3_witness :
    (Reconciler.reconcile cfgDemo provOk (Except.ok none) saveOkFn []
        3 0).observer_calls = 1 :=
  c3_single_observation cfgDemo provOk (Except.ok none) none saveOkFn []
    3 0 rfl

/-- Claim C3 is false as stated: a run with `max_attempts = 2` in which
the first attempt partially fails performs two attempts but only one
`list_project_pods` observation — the retry reuses the observation
taken before the first attempt. -/
theorem c3_counterexample :
    (Reconciler.reconcile cfgDemo provFailCreate (Except.ok none)
        saveOkFn [] 2 0).attempts_made = 2
    ∧ (Reconciler.reconcile cfgDemo provFailCreate (Except.ok none)
        saveOkFn [] 2 0).observer_calls = 1 := by
  constructor
  · decide
  · decide

end Halldyll
